import Mathlib

/-!
Verification of the imalink-core image-processing pipeline.

This file shallowly embeds the Python sources of imalink-core
(preview/generator.py, metadata/exif_extractor.py, image/formats.py,
validation/image_validator.py, api.py) into Lean 4 and proves the
specification claims about them.

Conventions of the embedding:
* Python byte strings are `List Nat` (each entry < 256 where it matters).
* Python floats are modelled as exact rationals `ℚ`; places where binary
  floating point could deviate from exact rational arithmetic (rounding at
  half-way points, shortest-repr printing) are marked in comments.
* Fallible Python code (exceptions) returns `Option`/`Except`; a `try ... except`
  block is a `match` on that value.
* The PIL library boundary (decoding, resampling, JPEG encoding) is a record
  of pure functions, `PILBackend`; theorems that depend on documented PIL
  behaviour (a resize yields the requested dimensions) take that behaviour
  as an explicit hypothesis.
-/

namespace Imalink

/-! ## SHA-256 (hashlib.sha256(...).hexdigest())

A complete executable SHA-256 over byte lists, used by
`PreviewGenerator.generate_hotpreview` and `HothashCalculator`. -/

def M32 : Nat := 4294967296

/-- Truncation to a 32-bit word. -/
def w32 (n : Nat) : Nat := n % M32

/-- Right rotation of a 32-bit word. -/
def rotr (n x : Nat) : Nat := w32 ((x >>> n) ||| (x <<< (32 - n)))

def shaCh (x y z : Nat) : Nat := (x &&& y) ^^^ ((x ^^^ 4294967295) &&& z)

def shaMaj (x y z : Nat) : Nat := (x &&& y) ^^^ (x &&& z) ^^^ (y &&& z)

def bigSigma0 (x : Nat) : Nat := (rotr 2 x) ^^^ (rotr 13 x) ^^^ (rotr 22 x)

def bigSigma1 (x : Nat) : Nat := (rotr 6 x) ^^^ (rotr 11 x) ^^^ (rotr 25 x)

def smallSigma0 (x : Nat) : Nat := (rotr 7 x) ^^^ (rotr 18 x) ^^^ (x >>> 3)

def smallSigma1 (x : Nat) : Nat := (rotr 17 x) ^^^ (rotr 19 x) ^^^ (x >>> 10)

/-- The 64 SHA-256 round constants (FIPS 180-4, written in decimal). -/
def shaK : List Nat :=
  [1116352408, 1899447441, 3049323471, 3921009573,
   961987163, 1508970993, 2453635748, 2870763221,
   3624381080, 310598401, 607225278, 1426881987,
   1925078388, 2162078206, 2614888103, 3248222580,
   3835390401, 4022224774, 264347078, 604807628,
   770255983, 1249150122, 1555081692, 1996064986,
   2554220882, 2821834349, 2952996808, 3210313671,
   3336571891, 3584528711, 113926993, 338241895,
   666307205, 773529912, 1294757372, 1396182291,
   1695183700, 1986661051, 2177026350, 2456956037,
   2730485921, 2820302411, 3259730800, 3345764771,
   3516065817, 3600352804, 4094571909, 275423344,
   430227734, 506948616, 659060556, 883997877,
   958139571, 1322822218, 1537002063, 1747873779,
   1955562222, 2024104815, 2227730452, 2361852424,
   2428436474, 2756734187, 3204031479, 3329325298]

/-- The SHA-256 working state: eight 32-bit words. -/
structure ShaState where
  a : Nat
  b : Nat
  c : Nat
  d : Nat
  e : Nat
  f : Nat
  g : Nat
  h : Nat

/-- The SHA-256 initial hash value (FIPS 180-4, written in decimal). -/
def shaInit : ShaState :=
  ⟨1779033703, 3144134277, 1013904242, 2773480762,
   1359893119, 2600822924, 528734635, 1541459225⟩

/-- Big-endian bytes of a number, fixed byte count. -/
def toBytesBE : Nat → Nat → List Nat
  | 0, _ => []
  | k + 1, x => toBytesBE k (x >>> 8) ++ [x % 256]

/-- Big-endian serialization of the state, 4 bytes per word. -/
def digestBytes (s : ShaState) : List Nat :=
  toBytesBE 4 s.a ++ toBytesBE 4 s.b ++ toBytesBE 4 s.c ++ toBytesBE 4 s.d ++
  toBytesBE 4 s.e ++ toBytesBE 4 s.f ++ toBytesBE 4 s.g ++ toBytesBE 4 s.h

/-- SHA-256 padding: append 0x80, zeros to 56 mod 64, then the 64-bit
big-endian bit length. -/
def padMessage (msg : List Nat) : List Nat :=
  let L := msg.length
  let zeros := (119 - L % 64) % 64
  msg ++ (128 :: List.replicate zeros 0) ++ toBytesBE 8 ((8 * L) % (2 ^ 64))

/-- Split a byte list into 64-byte chunks. -/
def chunks64 (l : List Nat) : List (List Nat) :=
  if h : l = [] then []
  else l.take 64 :: chunks64 (l.drop 64)
termination_by l.length
decreasing_by
  simp only [List.length_drop]
  exact Nat.sub_lt (List.length_pos.mpr h) (by norm_num)

/-- Big-endian 32-bit words from bytes. -/
def bytesToWords : List Nat → List Nat
  | a :: b :: c :: d :: rest =>
      ((a <<< 24) ||| (b <<< 16) ||| (c <<< 8) ||| d) :: bytesToWords rest
  | _ => []

/-- Extend the 16-word message schedule by `k` further words. -/
def extendSchedule : Nat → List Nat → List Nat
  | 0, ws => ws
  | k + 1, ws =>
      let i := ws.length
      let w := w32 (smallSigma1 (ws.getD (i - 2) 0) + ws.getD (i - 7) 0 +
                    smallSigma0 (ws.getD (i - 15) 0) + ws.getD (i - 16) 0)
      extendSchedule k (ws ++ [w])

/-- One SHA-256 compression round; the pair carries (round constant, word). -/
def roundStep (st : ShaState) (kw : Nat × Nat) : ShaState :=
  let t1 := w32 (st.h + bigSigma1 st.e + shaCh st.e st.f st.g + kw.1 + kw.2)
  let t2 := w32 (bigSigma0 st.a + shaMaj st.a st.b st.c)
  ⟨w32 (t1 + t2), st.a, st.b, st.c, w32 (st.d + t1), st.e, st.f, st.g⟩

/-- Compress one 64-byte chunk into the running state. -/
def compress (st : ShaState) (chunk : List Nat) : ShaState :=
  let ws := extendSchedule 48 (bytesToWords chunk)
  let r := (shaK.zip ws).foldl roundStep st
  ⟨w32 (st.a + r.a), w32 (st.b + r.b), w32 (st.c + r.c), w32 (st.d + r.d),
   w32 (st.e + r.e), w32 (st.f + r.f), w32 (st.g + r.g), w32 (st.h + r.h)⟩

/-- SHA-256 digest of a byte list, as 32 bytes. -/
def sha256bytes (msg : List Nat) : List Nat :=
  digestBytes ((chunks64 (padMessage msg)).foldl compress shaInit)

/-- The sixteen lowercase hexadecimal digit characters. -/
def hexDigits : List Char := "0123456789abcdef".toList

def hexChar (n : Nat) : Char := hexDigits.getD n '0'

/-- Two lowercase hex characters of one byte. -/
def byteHex (n : Nat) : List Char := [hexChar (n / 16 % 16), hexChar (n % 16)]

/-- hashlib hexdigest: lowercase hex of every digest byte. -/
def sha256hexChars (msg : List Nat) : List Char :=
  (sha256bytes msg).flatMap byteHex

/-- SHA-256 hex digest of a byte list (hashlib.sha256(b).hexdigest()). -/
def sha256hex (msg : List Nat) : String :=
  String.mk (sha256hexChars msg)

/-! ## Base64 (base64.b64encode(...).decode()) -/

def b64Alphabet : List Char :=
  "ABCDEFGHIJKLMNOPQRSTUVWXYZabcdefghijklmnopqrstuvwxyz0123456789+/".toList

def b64Char (n : Nat) : Char := b64Alphabet.getD n 'A'

/-- RFC 4648 base64 encoding of a byte list. -/
def base64encode : List Nat → List Char
  | [] => []
  | [a] => [b64Char (a >>> 2), b64Char ((a % 4) <<< 4), '=', '=']
  | [a, b] => [b64Char (a >>> 2), b64Char (((a % 4) <<< 4) ||| (b >>> 4)),
               b64Char ((b % 16) <<< 2), '=']
  | a :: b :: c :: rest =>
      b64Char (a >>> 2) :: b64Char (((a % 4) <<< 4) ||| (b >>> 4)) ::
      b64Char (((b % 16) <<< 2) ||| (c >>> 6)) :: b64Char (c % 64) ::
      base64encode rest

/-! ## preview/generator.py

The PIL library boundary is a record of pure functions on an abstract raster
(width, height, and an opaque pixel-content tag). The dimension arithmetic of
PIL's Image.thumbnail, which the source calls and whose result it reports as
the preview's width/height, is embedded exactly (over exact rationals; PIL
uses binary floats, which agree except at ties unreachable below). -/

/-- A decoded raster: dimensions plus an opaque tag for the pixel content. -/
structure Raster where
  width : Nat
  height : Nat
  content : Nat
deriving DecidableEq

/-- The PIL operations used by preview/generator.py, as pure functions. -/
structure PILBackend where
  exif_transpose : Raster → Raster
  resample : Raster → Nat × Nat → Raster
  convertRGB : Raster → Raster
  encodeJPEG : Raster → Nat → List Nat

/-- PIL Image.thumbnail round_aspect: max(min(floor, ceil, key=key), 1),
where Python's min picks the floor on a key tie. -/
def roundAspect (t : ℚ) (key : ℤ → ℚ) : ℤ :=
  max (if key ⌊t⌋ ≤ key ⌈t⌉ then ⌊t⌋ else ⌈t⌉) 1

/-- PIL Image.thumbnail target-size computation for a w×h raster and an x×y
box, in the case the raster does not already fit the box. -/
def thumbnailSize (w h x y : Nat) : ℤ × ℤ :=
  let aspect : ℚ := (w : ℚ) / (h : ℚ)
  if (x : ℚ) / (y : ℚ) ≥ aspect then
    (roundAspect ((y : ℚ) * aspect) (fun n => |aspect - (n : ℚ) / (y : ℚ)|), (y : ℤ))
  else
    ((x : ℤ),
     roundAspect ((x : ℚ) / aspect)
       (fun n => if n = 0 then 0 else |aspect - (x : ℚ) / (n : ℚ)|))

/-- PIL Image.thumbnail: no-op when the raster already fits the box, else a
LANCZOS resample to the aspect-preserving size. -/
def thumbnail (B : PILBackend) (r : Raster) (size : Nat × Nat) : Raster :=
  if size.1 ≥ r.width ∧ size.2 ≥ r.height then r
  else
    let d := thumbnailSize r.width r.height size.1 size.2
    B.resample r (d.1.toNat, d.2.toNat)

/-- HotPreview dataclass of preview/generator.py. -/
structure HotPreview where
  bytes : List Nat
  b64 : List Char
  hothash : String
  width : Nat
  height : Nat
deriving DecidableEq

/-- ColdPreview dataclass of preview/generator.py. -/
structure ColdPreview where
  bytes : List Nat
  b64 : List Char
  width : Nat
  height : Nat
deriving DecidableEq

def DEFAULT_HOT_SIZE : Nat × Nat := (150, 150)

/-- The body of generate_hotpreview after EXIF transposition: thumbnail,
measure, encode JPEG, hash the encoded bytes, base64 them. -/
def renderHot (B : PILBackend) (img : Raster) (size : Nat × Nat)
    (quality : Nat) : HotPreview :=
  let img2 := thumbnail B img size
  let preview_bytes := B.encodeJPEG (B.convertRGB img2) quality
  { bytes := preview_bytes
    b64 := base64encode preview_bytes
    hothash := sha256hex preview_bytes
    width := img2.width
    height := img2.height }

/-- PreviewGenerator.generate_hotpreview on an opened image (the Image.open
step is the caller-supplied raster). -/
def generate_hotpreview (B : PILBackend) (img : Raster) (size : Nat × Nat)
    (quality : Nat) : HotPreview :=
  renderHot B (B.exif_transpose img) size quality

/-- The body of generate_coldpreview after EXIF transposition. -/
def renderCold (B : PILBackend) (img : Raster) (max_size : Nat)
    (quality : Nat) : ColdPreview :=
  let img2 := thumbnail B img (max_size, max_size)
  let preview_bytes := B.encodeJPEG (B.convertRGB img2) quality
  { bytes := preview_bytes
    b64 := base64encode preview_bytes
    width := img2.width
    height := img2.height }

/-- PreviewGenerator.generate_coldpreview on an opened image. -/
def generate_coldpreview (B : PILBackend) (img : Raster) (max_size : Nat)
    (quality : Nat) : ColdPreview :=
  renderCold B (B.exif_transpose img) max_size quality

/-- PreviewGenerator.generate_both: both previews at the default sizes. -/
def generate_both (B : PILBackend) (img : Raster) : HotPreview × ColdPreview :=
  (generate_hotpreview B img DEFAULT_HOT_SIZE 85,
   generate_coldpreview B img 1920 90)

namespace HothashCalculator

/-- HothashCalculator.calculate: SHA-256 hex digest of the bytes. -/
def calculate (image_bytes : List Nat) : String := sha256hex image_bytes

/-- HothashCalculator.verify: recompute and compare. -/
def verify (image_bytes : List Nat) (expected_hash : String) : Bool :=
  calculate image_bytes == expected_hash

end HothashCalculator

/-- The typed error raised by the from_image preview entry points: the 4×4
floor rejection ("image too small", a ValueError) is a distinct category from
a generic decode failure. -/
inductive PreviewError where
  | tooSmall (w : Nat) (h : Nat)
  | decodeFailure (msg : String)
deriving DecidableEq

/-- Modelled from the spec: PreviewGenerator.generate_hotpreview_from_image is
called by service/main.py (which catches its ValueError as "Image too small
(< 4x4 pixels)") and exercised by tests/test_service_api.py, but its
definition is missing from the src snapshot of preview/generator.py. Per
spec section 4.4, it runs the same thumbnail-and-encode pipeline on an
already-opened, orientation-corrected image and rejects a source raster
smaller than the 4×4-pixel floor in either dimension with a typed "image too
small" error instead of producing a degenerate preview. -/
def generate_hotpreview_from_image (B : PILBackend) (img : Raster)
    (size : Nat × Nat) (quality : Nat) : Except PreviewError HotPreview :=
  if img.width < 4 ∨ img.height < 4 then
    .error (.tooSmall img.width img.height)
  else
    .ok (renderHot B img size quality)

/-- Modelled from the spec: PreviewGenerator.generate_coldpreview_from_image,
the cold-preview counterpart of generate_hotpreview_from_image; same 4×4
floor, same missing-from-src status. -/
def generate_coldpreview_from_image (B : PILBackend) (img : Raster)
    (max_size : Nat) (quality : Nat) : Except PreviewError ColdPreview :=
  if img.width < 4 ∨ img.height < 4 then
    .error (.tooSmall img.width img.height)
  else
    .ok (renderCold B img max_size quality)

/-! ## Python values appearing as EXIF tag payloads

EXIF tag values reaching the extractor are strings, integers, floats, PIL
IFDRational values (a Fraction subclass, NOT a tuple for isinstance), plain
2-tuples (n, d) from older PIL versions (a tuple for isinstance), tuples of
such numbers (GPS coordinates, GPS timestamps), and byte strings (GPS
altitude reference). Floats are modelled as exact rationals. -/

inductive PyNum where
  | int (n : ℤ)
  | float (q : ℚ)
  | rat (n : ℤ) (d : ℤ)
  | pair (n : ℤ) (d : ℤ)
deriving DecidableEq

inductive PyObj where
  | pystr (s : String)
  | num (v : PyNum)
  | tup (l : List PyNum)
  | pybytes (b : List Nat)
deriving DecidableEq

/-- Python float(x) for the numeric values. A 2-tuple raises TypeError
(none). An IFDRational with denominator 0 is PIL's NaN placeholder; every
use below either raises on it or fails its range check, so it is modelled as
a failure. -/
def PyNum.pyFloat : PyNum → Option ℚ
  | .int n => some (n : ℚ)
  | .float q => some q
  | .rat n d => if d = 0 then none else some ((n : ℚ) / (d : ℚ))
  | .pair _ _ => none

/-- Python int(x): truncation toward zero; raises (none) on tuples. -/
def PyNum.pyInt : PyNum → Option ℤ
  | .int n => some n
  | .float q => some (q.num.tdiv (q.den : ℤ))
  | .rat n d => if d = 0 then none else some (n.tdiv d)
  | .pair _ _ => none

/-- Python truthiness of a numeric value. -/
def PyNum.truthy : PyNum → Bool
  | .int n => n ≠ 0
  | .float q => q ≠ 0
  | .rat n _ => n ≠ 0
  | .pair _ _ => true

/-- Python truthiness of a tag value. -/
def PyObj.truthy : PyObj → Bool
  | .pystr s => !s.isEmpty
  | .num v => v.truthy
  | .tup l => !l.isEmpty
  | .pybytes b => !b.isEmpty

/-- Python numeric equality x == k for an integer k: numbers compare by
value; tuples and failures never equal an int. -/
def PyNum.eqInt (v : PyNum) (k : ℤ) : Bool :=
  v.pyFloat == some (k : ℚ)

/-- An EXIF tag directory: an association list from integer tag ids. -/
abbrev TagDict : Type := List (Nat × PyObj)

/-- Python dict membership / dict[k] as an Option. -/
def tagGet (d : TagDict) (k : Nat) : Option PyObj :=
  (List.find? (fun p => p.1 == k) d).map (fun p => p.2)

/-- Merge the EXIF sub-IFD into the main tag set: entries of the IFD are
added only for tag ids not already present (the source loop's
"if tag_id not in exif"). -/
def mergeIfd (main : TagDict) (ifd : TagDict) : TagDict :=
  main ++ ifd.filter (fun p => (tagGet main p.1).isNone)

/-! ## ExifExtractor._convert_to_decimal -/

/-- One element of a GPS coordinate tuple: a 2-tuple (n, d) is divided
(ZeroDivisionError → none), anything else goes through float(). This is the
per-component logic of _convert_to_decimal. -/
def gpsPart : PyNum → Option ℚ
  | .pair n d => if d = 0 then none else some ((n : ℚ) / (d : ℚ))
  | v => v.pyFloat

/-- The hemisphere test: ref in [S, W]. Only the exact strings compare
equal; absence or any other value leaves the sign. -/
def isSouthWest : Option PyObj → Bool
  | some (.pystr s) => s == "S" || s == "W"
  | _ => false

/-- ExifExtractor._convert_to_decimal: degrees + minutes/60 + seconds/3600
(seconds 0 when the tuple has two elements), negated when the reference is S
or W; a falsy coordinate gives None, a bare one-element value goes through
float(), any exception (zero denominator, float of a tuple) gives None.
Non-tuple coordinate payloads raise at len() and give None. (A numeric
string payload, which Python len()/float() could partially accept, is not
modelled; no claim touches it.) -/
def convert_to_decimal (coord : PyObj) (ref : Option PyObj) : Option ℚ :=
  if !coord.truthy then none
  else
    match coord with
    | .tup [a] =>
        (a.pyFloat).map (fun q => if isSouthWest ref then -q else q)
    | .tup (a :: b :: rest) =>
        match gpsPart a, gpsPart b with
        | some dg, some mn =>
            let s? : Option ℚ :=
              match rest with
              | [] => some 0
              | c :: _ => gpsPart c
            match s? with
            | some sc =>
                let dec := dg + mn / 60 + sc / 3600
                some (if isSouthWest ref then -dec else dec)
            | none => none
        | _, _ => none
    | _ => none

/-! ## ExifExtractor._extract_gps_from_exif

The whole body is wrapped in one try/except returning six Nones; the
latitude/longitude block never raises (conversion has its own try), but the
altitude and timestamp blocks can raise, which blanks everything. The body
is therefore written in an Option monad whose failure the outer handler maps
to the all-None tuple. -/

/-- The six-component GPS result (latitude, longitude, altitude, timestamp,
datestamp, map datum). Datestamp and map datum are raw tag payloads. -/
structure GpsResult where
  lat : Option ℚ
  lon : Option ℚ
  alt : Option ℚ
  time : Option String
  date : Option PyObj
  datum : Option PyObj
deriving DecidableEq

def GpsResult.allNone : GpsResult := ⟨none, none, none, none, none, none⟩

/-- Zero-pad a nonnegative integer rendering to two digits (the 02d format;
negative values render with their sign, as in Python). -/
def pad2 (n : ℤ) : String :=
  if 0 ≤ n ∧ n < 10 then "0" ++ toString n else toString n

/-- The latitude/longitude block: convert both only when both tags are
present and truthy, then validate the converted pair as a unit (range and
Null Island). Mirrors lines 397-415 of exif_extractor.py, including the
fact that the pair validation only runs when both conversions succeeded. -/
def gpsLatLon (gps : TagDict) : Option ℚ × Option ℚ :=
  let gps_latitude := tagGet gps 2
  let gps_latitude_ref := tagGet gps 1
  let gps_longitude := tagGet gps 4
  let gps_longitude_ref := tagGet gps 3
  match gps_latitude, gps_longitude with
  | some latv, some lonv =>
      if latv.truthy && lonv.truthy then
        let lat := convert_to_decimal latv gps_latitude_ref
        let lon := convert_to_decimal lonv gps_longitude_ref
        match lat, lon with
        | some la, some lo =>
            -- the source's "if not (range)" with its branches swapped
            if -90 ≤ la ∧ la ≤ 90 ∧ -180 ≤ lo ∧ lo ≤ 180 then
              (if la = 0 ∧ lo = 0 then (none, none) else (some la, some lo))
            else (none, none)
        | la?, lo? => (la?, lo?)
      else (none, none)
  | _, _ => (none, none)

/-- The altitude block: a 2-tuple divides (ZeroDivisionError propagates),
anything else goes through float() (TypeError propagates); the reference
byte 0x01 negates. Mirrors lines 417-428. -/
def gpsAltitude (gps : TagDict) : Option (Option ℚ) :=
  match tagGet gps 6 with
  | none => some none
  | some alt_value =>
      let raw? : Option ℚ :=
        match alt_value with
        | .num (.pair n d) => if d = 0 then none else some ((n : ℚ) / (d : ℚ))
        | .tup l =>
            match l with
            | a :: b :: _ =>
                match a.pyFloat, b.pyFloat with
                | some x, some y => if y = 0 then none else some (x / y)
                | _, _ => none
            | _ => none
        | .num v => v.pyFloat
        | _ => none
      match raw? with
      | none => none
      | some altitude =>
          some (some (if tagGet gps 5 == some (.pybytes [1])
                      then -altitude else altitude))

/-- The GPS timestamp block: a 3-element tuple formats as HH:MM:SS through
int(); a sized value of other length is skipped; len() of a non-sized value
raises. Mirrors lines 430-438. -/
def gpsTimestamp (gps : TagDict) : Option (Option String) :=
  match tagGet gps 7 with
  | none => some none
  | some (.tup [t0, t1, t2]) =>
      match t0.pyInt, t1.pyInt, t2.pyInt with
      | some hour, some minute, some second =>
          some (some (pad2 hour ++ ":" ++ pad2 minute ++ ":" ++ pad2 second))
      | _, _, _ => none
  | some (.tup _) => some none
  | some (.pystr _) => some none
  | some _ => none

/-- The raising body of _extract_gps_from_exif. -/
def extract_gps_body (gps : TagDict) : Option GpsResult := do
  let ll := gpsLatLon gps
  let alt ← gpsAltitude gps
  let time ← gpsTimestamp gps
  pure { lat := ll.1, lon := ll.2, alt := alt, time := time,
         date := tagGet gps 29, datum := tagGet gps 18 }

/-- ExifExtractor._extract_gps_from_exif on the GPS IFD (get_ifd(0x8825)
gives an empty dict when the IFD is absent; an empty dict is falsy and
yields six Nones, as does any exception in the body). -/
def extract_gps_from_exif (gps : TagDict) : GpsResult :=
  if gps.isEmpty then GpsResult.allNone
  else
    match extract_gps_body gps with
    | some r => r
    | none => GpsResult.allNone

/-! ## ExifExtractor._standardize_datetime

datetime.strptime is embedded for exactly the seven format strings the
source tries. In CPython, %Y compiles to four digits, %m/%d/%H/%M/%S to one
or two digits, %f to one to six digits, and the whole string must be
consumed; since in all seven formats every digit field is followed by a
non-digit literal or the end, the greedy reading below coincides with the
regex. datetime() validation (month/day ranges, leap years, 0-23/0-59
bounds, year 1-9999) is applied afterwards, as strptime does. -/

/-- A token of one of the seven camera datetime formats. -/
inductive FTok where
  | lit (c : Char)
  | y4
  | d2
  | frac
deriving DecidableEq

def digitsVal (l : List Char) : Nat :=
  l.foldl (fun a c => 10 * a + (c.toNat - 48)) 0

/-- Run a token list against the input characters, capturing the numeric
fields in order; the %f capture is already scaled to microseconds. Fails
unless the whole input is consumed. -/
def runToks : List FTok → List Char → Option (List Nat)
  | [], [] => some []
  | [], _ => none
  | .lit c :: ts, x :: xs => if x = c then runToks ts xs else none
  | .lit _ :: _, [] => none
  | .y4 :: ts, xs =>
      let ds := xs.take 4
      if ds.length = 4 ∧ ds.all Char.isDigit then
        (runToks ts (xs.drop 4)).map (fun r => digitsVal ds :: r)
      else none
  | .d2 :: ts, xs =>
      let ds := (xs.takeWhile Char.isDigit).take 2
      if ds.isEmpty then none
      else (runToks ts (xs.drop ds.length)).map (fun r => digitsVal ds :: r)
  | .frac :: ts, xs =>
      let ds := (xs.takeWhile Char.isDigit).take 6
      if ds.isEmpty then none
      else
        (runToks ts (xs.drop ds.length)).map
          (fun r => digitsVal ds * 10 ^ (6 - ds.length) :: r)

/-- A parsed, validated datetime (what datetime.strptime constructs). -/
structure PyDateTime where
  year : Nat
  month : Nat
  day : Nat
  hour : Nat
  minute : Nat
  second : Nat
  usec : Nat
deriving DecidableEq

def isLeapYear (y : Nat) : Bool :=
  (y % 4 == 0 && y % 100 != 0) || y % 400 == 0

def daysInMonth (y m : Nat) : Nat :=
  if m = 2 then (if isLeapYear y then 29 else 28)
  else if m = 4 ∨ m = 6 ∨ m = 9 ∨ m = 11 then 30
  else 31

/-- The datetime() constructor validation. -/
def validDateTime (t : PyDateTime) : Bool :=
  1 ≤ t.year && t.year ≤ 9999 && 1 ≤ t.month && t.month ≤ 12 &&
  1 ≤ t.day && t.day ≤ daysInMonth t.year t.month &&
  t.hour ≤ 23 && t.minute ≤ 59 && t.second ≤ 59 && t.usec ≤ 999999

def mkDateTime : List Nat → Option PyDateTime
  | [y, mo, da] =>
      let t : PyDateTime := ⟨y, mo, da, 0, 0, 0, 0⟩
      if validDateTime t then some t else none
  | [y, mo, da, h, mi, s] =>
      let t : PyDateTime := ⟨y, mo, da, h, mi, s, 0⟩
      if validDateTime t then some t else none
  | [y, mo, da, h, mi, s, f] =>
      let t : PyDateTime := ⟨y, mo, da, h, mi, s, f⟩
      if validDateTime t then some t else none
  | _ => none

/-- datetime.strptime restricted to the seven embedded formats. -/
def strptime7 (fmt : List FTok) (s : String) : Option PyDateTime :=
  (runToks fmt s.toList).bind mkDateTime

def fmtDateColon : List FTok := [.y4, .lit ':', .d2, .lit ':', .d2]

def fmtDateDash : List FTok := [.y4, .lit '-', .d2, .lit '-', .d2]

def fmtTimePart : List FTok := [.d2, .lit ':', .d2, .lit ':', .d2]

/-- The seven formats of _standardize_datetime, in source order. -/
def formatsList : List (List FTok) :=
  [fmtDateColon ++ [.lit ' '] ++ fmtTimePart,
   fmtDateDash ++ [.lit ' '] ++ fmtTimePart,
   fmtDateDash ++ [.lit 'T'] ++ fmtTimePart,
   fmtDateColon ++ [.lit ' '] ++ fmtTimePart ++ [.lit '.', .frac],
   fmtDateDash ++ [.lit ' '] ++ fmtTimePart ++ [.lit '.', .frac],
   fmtDateColon,
   fmtDateDash]

/-- Zero-pad a natural to a width. -/
def padN (w : Nat) (n : Nat) : String :=
  let s := toString n
  String.mk (List.replicate (w - s.length) '0') ++ s

/-- datetime.isoformat(): microseconds only when nonzero. -/
def isoformat (t : PyDateTime) : String :=
  padN 4 t.year ++ "-" ++ padN 2 t.month ++ "-" ++ padN 2 t.day ++ "T" ++
  padN 2 t.hour ++ ":" ++ padN 2 t.minute ++ ":" ++ padN 2 t.second ++
  (if t.usec = 0 then "" else "." ++ padN 6 t.usec)

/-- Python str.strip(): drop leading and trailing whitespace. (Python
strips a slightly wider class of Unicode whitespace; identical on ASCII.) -/
def pyStrip (s : String) : String :=
  String.mk
    (((s.toList.dropWhile Char.isWhitespace).reverse.dropWhile
        Char.isWhitespace).reverse)

/-- The timezone-dropping cleanup: split on the first plus sign (keep the
head), then on the first Z, then strip. -/
def cleanDtStr (s : String) : String :=
  pyStrip (String.mk
    ((s.toList.takeWhile (fun c => c != '+')).takeWhile (fun c => c != 'Z')))

/-- ExifExtractor._standardize_datetime on a string: empty strings pass
through, otherwise the cleaned string is tried against the formats in order
and the first success is rendered in ISO-8601; if none matches, the ORIGINAL
string (not the cleaned one) is returned. -/
def standardize_datetime (s : String) : String :=
  if s.isEmpty then s
  else
    match formatsList.findSome? (fun f => strptime7 f (cleanDtStr s)) with
    | some t => isoformat t
    | none => s

/-- _standardize_datetime on an arbitrary tag payload: non-strings are
returned unmodified by the isinstance guard. -/
def standardizePy : PyObj → PyObj
  | .pystr s => .pystr (standardize_datetime s)
  | v => v

/-- The timestamp probing loop of extract_basic: tags 36867, 36868, 306 in
order; a present-but-falsy value does not break the loop. -/
def probe_taken_at : List Nat → TagDict → Option PyObj
  | [], _ => none
  | t :: ts, tags =>
      match tagGet tags t with
      | some v => if v.truthy then some (standardizePy v) else probe_taken_at ts tags
      | none => probe_taken_at ts tags

def datetimeTags : List Nat := [36867, 36868, 306]

/-! ## Rendering of Python numbers (str(), format, round)

Python renders floats by shortest round-trip repr of the binary double and
rounds with round-half-even on that double. The embedding computes on exact
rationals: rendering is exact for decimally-terminating values and rounding
is exact except at binary-representation ties; no claim depends on a
deviating input. String-to-number coercions of numeric strings (int("400"))
are likewise not modelled; no claim involves a numeric string payload. -/

/-- round-half-even of a rational to an integer (Python round()). -/
def roundHalfEvenInt (q : ℚ) : ℤ :=
  let f := ⌊q⌋
  let r := q - (f : ℚ)
  if r < 1 / 2 then f
  else if 1 / 2 < r then f + 1
  else if f % 2 = 0 then f else f + 1

/-- Python round(x, d): round-half-even at d decimal digits. -/
def roundPy (q : ℚ) (d : Nat) : ℚ :=
  ((roundHalfEvenInt (q * 10 ^ d) : ℤ) : ℚ) / (10 ^ d : ℚ)

/-- Fixed-point format with exactly d decimals (the .3f / .1f formats). -/
def fmtFixed (d : Nat) (q : ℚ) : String :=
  let n := roundHalfEvenInt (q * 10 ^ d)
  let sign := if n < 0 then "-" else ""
  let m := n.natAbs
  if d = 0 then sign ++ toString m
  else sign ++ toString (m / 10 ^ d) ++ "." ++ padN d (m % 10 ^ d)

/-- str() of a float: decimal rendering for decimally-terminating values
(the integer part, a point, and the minimal nonempty digit run), fraction
rendering otherwise (unreachable from the claims). -/
def floatStr (q : ℚ) : String :=
  match (List.range 40).find? (fun k => 10 ^ k % q.den == 0) with
  | some k =>
      let n := q.num.natAbs * (10 ^ k / q.den)
      let sign := if q.num < 0 then "-" else ""
      if k = 0 then sign ++ toString n ++ ".0"
      else sign ++ toString (n / 10 ^ k) ++ "." ++ padN k (n % 10 ^ k)
  | none => toString q

/-- str() of a number. An IFDRational prints through Fraction.__str__ on
PIL's unnormalized numerator/denominator pair. -/
def pyNumStr : PyNum → String
  | .int n => toString n
  | .float q => floatStr q
  | .rat n d => if d = 1 then toString n else toString n ++ "/" ++ toString d
  | .pair n d => "(" ++ toString n ++ ", " ++ toString d ++ ")"

/-- str() of a tag payload. Byte strings render schematically (never reached
by a claim). -/
def pyObjStr : PyObj → String
  | .pystr s => s
  | .num v => pyNumStr v
  | .tup [v] => "(" ++ pyNumStr v ++ ",)"
  | .tup l => "(" ++ String.intercalate ", " (l.map pyNumStr) ++ ")"
  | .pybytes b => "bytes " ++ toString b

/-! ## ExifExtractor.extract_basic / extract_basic_from_bytes

Both operate on a decoded image: Image.open either fails (the outer except
returns the empty record) or yields dimensions, the main EXIF directory, and
the two sub-IFDs. The path variant's Make/Model reads can raise
(.strip() on a non-string), which aborts the remaining assignments while
keeping the fields already set; the bytes variant's str(...).strip() never
raises. -/

/-- What Image.open plus getexif/get_ifd deliver for one image. -/
structure DecodedImage where
  raster : Raster
  tags : TagDict
  exifIfd : TagDict
  gpsIfd : TagDict
deriving DecidableEq

/-- BasicMetadata dataclass. taken_at holds the raw payload when a truthy
non-string reaches the isinstance guard of _standardize_datetime. -/
structure BasicMetadata where
  taken_at : Option PyObj
  width : Option Nat
  height : Option Nat
  camera_make : Option String
  camera_model : Option String
  gps_latitude : Option ℚ
  gps_longitude : Option ℚ
  gps_altitude : Option ℚ
  gps_timestamp : Option String
  gps_datestamp : Option PyObj
  gps_map_datum : Option PyObj
deriving DecidableEq

def BasicMetadata.empty : BasicMetadata :=
  ⟨none, none, none, none, none, none, none, none, none, none, none⟩

/-- The path variant's Make/Model read: value.strip() if value else None;
none models the AttributeError of .strip() on a truthy non-string. -/
def stripField (v : PyObj) : Option (Option String) :=
  if v.truthy then
    match v with
    | .pystr s => some (some (pyStrip s))
    | _ => none
  else some none

/-- Copy the GPS block into the record (identical in both variants). -/
def basicGpsStep (gps : TagDict) (r : BasicMetadata) : BasicMetadata :=
  let g := extract_gps_from_exif gps
  { r with gps_latitude := g.lat, gps_longitude := g.lon,
           gps_altitude := g.alt, gps_timestamp := g.time,
           gps_datestamp := g.date, gps_map_datum := g.datum }

/-- Path variant, Model tag then GPS; an exception keeps the fields set so
far. -/
def basicModelStep (img : DecodedImage) (r : BasicMetadata) : BasicMetadata :=
  match tagGet img.tags 272 with
  | none => basicGpsStep img.gpsIfd r
  | some v =>
      match stripField v with
      | none => r
      | some md => basicGpsStep img.gpsIfd { r with camera_model := md }

/-- Path variant, Make tag then the rest. -/
def basicMakeStep (img : DecodedImage) (r : BasicMetadata) : BasicMetadata :=
  match tagGet img.tags 271 with
  | none => basicModelStep img r
  | some v =>
      match stripField v with
      | none => r
      | some mk => basicModelStep img { r with camera_make := mk }

/-- ExifExtractor.extract_basic (path form). -/
def extract_basic (d : Except String DecodedImage) : BasicMetadata :=
  match d with
  | .error _ => BasicMetadata.empty
  | .ok img =>
      let r0 := { BasicMetadata.empty with
                  width := some img.raster.width,
                  height := some img.raster.height }
      if img.tags.isEmpty then r0
      else
        basicMakeStep img
          { r0 with taken_at := probe_taken_at datetimeTags img.tags }

/-- ExifExtractor.extract_basic_from_bytes: identical except Make/Model go
through str(...).strip() unconditionally (no truthiness check, no raise). -/
def extract_basic_from_bytes (d : Except String DecodedImage) : BasicMetadata :=
  match d with
  | .error _ => BasicMetadata.empty
  | .ok img =>
      let r0 := { BasicMetadata.empty with
                  width := some img.raster.width,
                  height := some img.raster.height }
      if img.tags.isEmpty then r0
      else
        let r1 := { r0 with taken_at := probe_taken_at datetimeTags img.tags }
        let r2 := match tagGet img.tags 271 with
                  | none => r1
                  | some v => { r1 with camera_make := some (pyStrip (pyObjStr v)) }
        let r3 := match tagGet img.tags 272 with
                  | none => r2
                  | some v => { r2 with camera_model := some (pyStrip (pyObjStr v)) }
        basicGpsStep img.gpsIfd r3

/-! ## ExifExtractor.extract_camera_settings / _from_bytes -/

/-- CameraSettings dataclass; cells hold raw tag payloads where the source
assigns them unconverted. -/
structure CameraSettings where
  iso : Option PyObj
  aperture : Option PyObj
  shutter_speed : Option PyObj
  focal_length : Option PyObj
  lens_model : Option PyObj
  lens_make : Option PyObj
  flash : Option PyObj
  exposure_program : Option PyObj
  metering_mode : Option PyObj
  white_balance : Option PyObj
deriving DecidableEq

def CameraSettings.empty : CameraSettings :=
  ⟨none, none, none, none, none, none, none, none, none, none⟩

/-- x[0]/x[1] of a tuple payload: IndexError, TypeError and
ZeroDivisionError all raise (none). -/
def tupleDiv : List PyNum → Option ℚ
  | a :: b :: _ =>
      match a.pyFloat, b.pyFloat with
      | some x, some y => if y = 0 then none else some (x / y)
      | _, _ => none
  | _ => none

/-- Path-variant FNumber/FocalLength: a tuple divides and rounds to one
decimal (exceptions propagate), anything else is assigned raw. -/
def tupleRound1OrRaw (v : PyObj) : Option PyObj :=
  match v with
  | .tup l => (tupleDiv l).map (fun q => .num (.float (roundPy q 1)))
  | .num (.pair n d) =>
      (tupleDiv [.pair n 1, .pair d 1]).map (fun q => .num (.float (roundPy q 1)))
  | _ => some v

/-- Path-variant ExposureTime: a tuple renders 1/denominator when the
numerator equals 1, otherwise a str() of round(quotient, 3); a non-tuple is
str()ed directly. -/
def shutterPath (v : PyObj) : Option PyObj :=
  match v with
  | .tup (a :: b :: _) =>
      if a.eqInt 1 then some (.pystr ("1/" ++ pyNumStr b))
      else
        match a.pyFloat, b.pyFloat with
        | some x, some y =>
            if y = 0 then none
            else some (.pystr (floatStr (roundPy (x / y) 3)))
        | _, _ => none
  | .tup _ => none
  | v => some (.pystr (pyObjStr v))

/-- Flash: bit 0 of an integer value; the bitwise AND raises on any
non-integer. -/
def flashLabel (v : PyObj) : Option PyObj :=
  match v with
  | .num (.int n) =>
      some (.pystr (if n.emod 2 ≠ 0 then "Fired" else "No Flash"))
  | _ => none

/-- dict.get(value, Unknown) against an int-keyed label table; numeric
values match their key by Python ==, everything else falls to the default. -/
def lookupLabel (table : List (ℤ × String)) (v : PyObj) : String :=
  match v with
  | .num n =>
      match table.find? (fun p => n.eqInt p.1) with
      | some p => p.2
      | none => "Unknown"
  | _ => "Unknown"

/-- The exposure-program table of the path variant. -/
def programsPath : List (ℤ × String) :=
  [(0, "Not Defined"), (1, "Manual"), (2, "Program AE"),
   (3, "Aperture Priority"), (4, "Shutter Priority"),
   (5, "Creative Program"), (6, "Action Program"),
   (7, "Portrait Mode"), (8, "Landscape Mode")]

/-- The exposure-program table of the bytes variant (different labels for
codes 5 through 8). -/
def programsBytes : List (ℤ × String) :=
  [(0, "Not Defined"), (1, "Manual"), (2, "Program AE"),
   (3, "Aperture Priority"), (4, "Shutter Priority"),
   (5, "Creative (Slow Speed)"), (6, "Action (High Speed)"),
   (7, "Portrait"), (8, "Landscape")]

/-- The metering-mode table (identical in both variants). -/
def meteringTable : List (ℤ × String) :=
  [(0, "Unknown"), (1, "Average"), (2, "Center Weighted Average"),
   (3, "Spot"), (4, "Multi-Spot"), (5, "Multi-Segment"), (6, "Partial")]

/-- White balance: == 0 gives Auto, anything else Manual. -/
def wbLabel (v : PyObj) : PyObj :=
  .pystr (if (match v with | .num n => n.eqInt 0 | _ => false)
          then "Auto" else "Manual")

/-- One guarded field read: absent tag skips, a raising conversion aborts
with the record built so far (error), success updates the record (ok). -/
def stepField (tags : TagDict) (k : Nat) (f : PyObj → Option PyObj)
    (set : CameraSettings → Option PyObj → CameraSettings)
    (r : CameraSettings) : Except CameraSettings CameraSettings :=
  match tagGet tags k with
  | none => .ok r
  | some v =>
      match f v with
      | none => .error r
      | some out => .ok (set r (some out))

/-- An unguarded field read (no conversion, cannot raise). -/
def rawField (tags : TagDict) (k : Nat)
    (set : CameraSettings → Option PyObj → CameraSettings)
    (r : CameraSettings) : CameraSettings :=
  match tagGet tags k with
  | none => r
  | some v => set r (some v)

/-- The label fields at the tail of both variants (exposure program,
metering mode, white balance); no raises. -/
def settingsTail (table : List (ℤ × String)) (tags : TagDict)
    (r : CameraSettings) : CameraSettings :=
  let r :=
    match tagGet tags 34850 with
    | none => r
    | some v =>
        { r with exposure_program := some (.pystr (lookupLabel table v)) }
  let r :=
    match tagGet tags 37383 with
    | none => r
    | some v =>
        { r with metering_mode := some (.pystr (lookupLabel meteringTable v)) }
  match tagGet tags 41987 with
  | none => r
  | some v => { r with white_balance := some (wbLabel v) }

/-- ExifExtractor.extract_camera_settings (path form): ISO raw, FNumber and
FocalLength via tuple-divide-and-round-else-raw, ExposureTime via the
fraction renderer, lens strings raw, flash bit, then the label tail; any
raise keeps the fields already assigned. -/
def extract_camera_settings (d : Except String DecodedImage) : CameraSettings :=
  match d with
  | .error _ => CameraSettings.empty
  | .ok img =>
      if img.tags.isEmpty then CameraSettings.empty
      else
        let tags := mergeIfd img.tags img.exifIfd
        let r := rawField tags 34855 (fun r v => { r with iso := v })
                   CameraSettings.empty
        match stepField tags 33437 tupleRound1OrRaw
                (fun r v => { r with aperture := v }) r with
        | .error r => r
        | .ok r =>
        match stepField tags 33434 shutterPath
                (fun r v => { r with shutter_speed := v }) r with
        | .error r => r
        | .ok r =>
        match stepField tags 37386 tupleRound1OrRaw
                (fun r v => { r with focal_length := v }) r with
        | .error r => r
        | .ok r =>
        let r := rawField tags 42036 (fun r v => { r with lens_model := v }) r
        let r := rawField tags 42035 (fun r v => { r with lens_make := v }) r
        match stepField tags 37385 flashLabel
                (fun r v => { r with flash := v }) r with
        | .error r => r
        | .ok r => settingsTail programsPath tags r

/-- Bytes-variant ISO: int(value). -/
def isoBytes (v : PyObj) : Option PyObj :=
  match v with
  | .num n => (n.pyInt).map (fun z => .num (.int z))
  | _ => none

/-- Bytes-variant FNumber/FocalLength: float(value). -/
def floatBytes (v : PyObj) : Option PyObj :=
  match v with
  | .num n => (n.pyFloat).map (fun q => .num (.float q))
  | _ => none

/-- Bytes-variant ExposureTime: float it, then 1/int(round(1/x)) for
sub-second values (ZeroDivisionError at zero) or a fixed 3-decimal string. -/
def shutterBytes (v : PyObj) : Option PyObj :=
  match v with
  | .num n =>
      match n.pyFloat with
      | none => none
      | some q =>
          if q < 1 then
            if q = 0 then none
            else some (.pystr ("1/" ++ toString (roundHalfEvenInt (1 / q))))
          else some (.pystr (fmtFixed 3 q))
  | _ => none

/-- ExifExtractor.extract_camera_settings_from_bytes. -/
def extract_camera_settings_from_bytes (d : Except String DecodedImage) :
    CameraSettings :=
  match d with
  | .error _ => CameraSettings.empty
  | .ok img =>
      if img.tags.isEmpty then CameraSettings.empty
      else
        let tags := mergeIfd img.tags img.exifIfd
        match stepField tags 34855 isoBytes
                (fun r v => { r with iso := v }) CameraSettings.empty with
        | .error r => r
        | .ok r =>
        match stepField tags 33437 floatBytes
                (fun r v => { r with aperture := v }) r with
        | .error r => r
        | .ok r =>
        match stepField tags 33434 shutterBytes
                (fun r v => { r with shutter_speed := v }) r with
        | .error r => r
        | .ok r =>
        match stepField tags 37386 floatBytes
                (fun r v => { r with focal_length := v }) r with
        | .error r => r
        | .ok r =>
        let r := rawField tags 42036 (fun r v => { r with lens_model := v }) r
        let r := rawField tags 42035 (fun r v => { r with lens_make := v }) r
        match stepField tags 37385 flashLabel
                (fun r v => { r with flash := v }) r with
        | .error r => r
        | .ok r => settingsTail programsBytes tags r

/-! ## image/formats.py -/

inductive ImageFormat where
  | JPEG
  | PNG
  | TIFF
  | NEF
  | CR2
  | ARW
  | DNG
  | HEIC
  | WEBP
deriving DecidableEq

/-- FormatDetector.SUPPORTED_EXTENSIONS, in source order. -/
def SUPPORTED_EXTENSIONS : List String :=
  [".jpg", ".jpeg", ".png", ".tiff", ".tif",
   ".nef", ".nrw", ".cr2", ".cr3", ".crw", ".arw", ".srf", ".sr2",
   ".raf", ".orf", ".rw2", ".raw", ".pef", ".ptx", ".x3f", ".rwl",
   ".dng", ".mrw", ".srw", ".3fr", ".dcr", ".kdc", ".mef", ".iiq",
   ".heic", ".webp"]

/-- FormatDetector.RAW_EXTENSIONS. -/
def RAW_EXTENSIONS : List String :=
  [".nef", ".nrw", ".cr2", ".cr3", ".crw", ".arw", ".srf", ".sr2",
   ".raf", ".orf", ".rw2", ".raw", ".pef", ".ptx", ".x3f", ".rwl",
   ".dng", ".mrw", ".srw", ".3fr", ".dcr", ".kdc", ".mef", ".iiq"]

/-- The extension-to-format map inside FormatDetector.detect_format. -/
def format_map : List (String × ImageFormat) :=
  [(".jpg", .JPEG), (".jpeg", .JPEG), (".png", .PNG), (".tiff", .TIFF),
   (".tif", .TIFF), (".nef", .NEF), (".cr2", .CR2), (".arw", .ARW),
   (".dng", .DNG), (".heic", .HEIC), (".webp", .WEBP)]

/-- str.lower() restricted to ASCII (all extensions are ASCII). -/
def strLower (s : String) : String :=
  String.mk (s.toList.map Char.toLower)

/-- FormatDetector.detect_format as a function of the path's suffix
(Path.suffix is the standard library; the argument here is that suffix). -/
def detect_format (suffix : String) : Option ImageFormat :=
  (format_map.find? (fun p => p.1 == strLower suffix)).map (fun p => p.2)

/-- FormatDetector.is_raw_format. -/
def is_raw_format (suffix : String) : Bool :=
  RAW_EXTENSIONS.contains (strLower suffix)

/-- FormatDetector.is_supported. -/
def is_supported (suffix : String) : Bool :=
  SUPPORTED_EXTENSIONS.contains (strLower suffix)

/-! ## validation/image_validator.py

A path under test is a record of what the file system and PIL report for it:
existence, regular-file status, stat() size (or an OSError), the suffix, the
PIL open result (dimensions or an exception message), and the full decode
view used by the downstream pipeline stages. -/

deriving instance DecidableEq for Except

structure PyFile where
  pathStr : String
  fname : String
  suffix : String
  pathExists : Bool
  isFile : Bool
  statSize : Except String Nat
  opened : Except String (Nat × Nat)
  decoded : Except String DecodedImage
deriving DecidableEq

def MAX_FILE_SIZE : Nat := 500 * 1024 * 1024

/-- ImageValidator.validate_file: the sequential gate, short-circuiting at
the first failing check, each with its distinct reason string. -/
def validate_file (f : PyFile) : Bool × Option String :=
  if !f.pathExists then (false, some ("File not found: " ++ f.pathStr))
  else if !f.isFile then (false, some ("Not a file: " ++ f.pathStr))
  else
    match f.statSize with
    | .error e => (false, some ("Cannot access file: " ++ e))
    | .ok size =>
        if size > MAX_FILE_SIZE then
          (false, some ("File too large: " ++
            fmtFixed 1 ((size : ℚ) / 1024 / 1024) ++ " MB (max " ++
            fmtFixed 0 500 ++ " MB)"))
        else if size == 0 then (false, some "File is empty")
        else if !is_supported f.suffix then
          (false, some ("Unsupported format: " ++ f.suffix))
        else
          match f.opened with
          | .error e => (false, some ("Cannot open image: " ++ e))
          | .ok wh =>
              if wh.1 < 100 ∨ wh.2 < 100 then
                (false, some ("Image too small: " ++ toString wh.1 ++ "x" ++
                  toString wh.2 ++ "px (min 100x100px)"))
              else if wh.1 > 50000 ∨ wh.2 > 50000 then
                (false, some ("Image too large: " ++ toString wh.1 ++ "x" ++
                  toString wh.2 ++ "px (max 50000x50000px)"))
              else (true, none)

/-- ImageValidator.is_valid. -/
def is_valid (f : PyFile) : Bool := (validate_file f).1

/-! ## api.py -/

/-- The CorePhoto fields process_image populates. -/
structure CorePhoto where
  hothash : String
  hotpreview_base64 : List Char
  hotpreview_width : Nat
  hotpreview_height : Nat
  coldpreview_base64 : Option (List Char)
  coldpreview_width : Option Nat
  coldpreview_height : Option Nat
  primary_filename : String
  taken_at : Option PyObj
  width : Option Nat
  height : Option Nat
  camera_make : Option String
  camera_model : Option String
  gps_latitude : Option ℚ
  gps_longitude : Option ℚ
  has_gps : Bool
  iso : Option PyObj
  aperture : Option PyObj
  shutter_speed : Option PyObj
  focal_length : Option PyObj
  lens_model : Option PyObj
  lens_make : Option PyObj
deriving DecidableEq

/-- The ImportResult dataclass. -/
structure ImportResult where
  success : Bool
  hothash : Option String
  photo : Option CorePhoto
  metadata : Option BasicMetadata
  camera_settings : Option CameraSettings
  hotpreview_base64 : Option (List Char)
  coldpreview_bytes : Option (List Nat)
  error : Option String
deriving DecidableEq

def mkFailure (e : String) : ImportResult :=
  ⟨false, none, none, none, none, none, none, some e⟩

/-- The body of process_image after the coldpreview_size precondition:
validate, then extract metadata and settings, generate the mandatory
hotpreview and the optional coldpreview, and assemble the records; a decode
exception surfaces as the Processing failed result. -/
def process_image_body (B : PILBackend) (f : PyFile)
    (coldpreview_size : Option Nat) : ImportResult :=
  let v := validate_file f
  if !v.1 then ⟨false, none, none, none, none, none, none, v.2⟩
  else
    match f.decoded with
    | .error e => mkFailure ("Processing failed: " ++ e)
    | .ok img =>
        let metadata := extract_basic (.ok img)
        let camera_settings := extract_camera_settings (.ok img)
        let hotpreview := generate_hotpreview B img.raster DEFAULT_HOT_SIZE 85
        let cold : Option ColdPreview :=
          coldpreview_size.map (fun s => generate_coldpreview B img.raster s 90)
        let photo : CorePhoto :=
          { hothash := hotpreview.hothash
            hotpreview_base64 := hotpreview.b64
            hotpreview_width := hotpreview.width
            hotpreview_height := hotpreview.height
            coldpreview_base64 := cold.map (fun c => c.b64)
            coldpreview_width := cold.map (fun c => c.width)
            coldpreview_height := cold.map (fun c => c.height)
            primary_filename := f.fname
            taken_at := metadata.taken_at
            width := metadata.width
            height := metadata.height
            camera_make := metadata.camera_make
            camera_model := metadata.camera_model
            gps_latitude := metadata.gps_latitude
            gps_longitude := metadata.gps_longitude
            has_gps := metadata.gps_latitude.isSome
            iso := camera_settings.iso
            aperture := camera_settings.aperture
            shutter_speed := camera_settings.shutter_speed
            focal_length := camera_settings.focal_length
            lens_model := camera_settings.lens_model
            lens_make := camera_settings.lens_make }
        { success := true
          hothash := some hotpreview.hothash
          photo := some photo
          metadata := some metadata
          camera_settings := some camera_settings
          hotpreview_base64 := some hotpreview.b64
          coldpreview_bytes := cold.map (fun c => c.bytes)
          error := none }

/-- api.process_image: the coldpreview_size-below-150 precondition, then the
body. -/
def process_image (B : PILBackend) (f : PyFile)
    (coldpreview_size : Option Nat) : ImportResult :=
  match coldpreview_size with
  | some s =>
      if s < 150 then
        mkFailure ("coldpreview_size must be >= 150 (hotpreview size), got "
          ++ toString s)
      else process_image_body B f (some s)
  | none => process_image_body B f none

/-- The loop of api.batch_process: enumerate(paths, 1), process each,
collect results, and record one progress-callback invocation
(current, total, result) per item. -/
def batch_go (B : PILBackend) (cold : Option Nat) (total : Nat) :
    Nat → List PyFile → List ImportResult × List (Nat × Nat × ImportResult)
  | _, [] => ([], [])
  | i, f :: fs =>
      let result := process_image B f cold
      let rest := batch_go B cold total (i + 1) fs
      (result :: rest.1, (i, total, result) :: rest.2)

/-- api.batch_process: sequential, in input order; the second component is
the trace of progress-callback invocations in call order. -/
def batch_process (B : PILBackend) (files : List PyFile) (cold : Option Nat) :
    List ImportResult × List (Nat × Nat × ImportResult) :=
  batch_go B cold files.length 1 files

/-- A trivial concrete PIL backend used to instantiate backend-quantified
theorems: resampling yields exactly the requested dimensions and encoding
serializes the raster descriptor. -/
def trivB : PILBackend :=
  { exif_transpose := fun r => r
    resample := fun r d => ⟨d.1, d.2, r.content⟩
    convertRGB := fun r => r
    encodeJPEG := fun r q => [r.width % 256, r.height % 256, r.content % 256, q % 256] }

/-- A GPS IFD whose latitude converts but whose longitude has a
zero-denominator first component, so longitude conversion fails. -/
def gpsPartialIfd : TagDict :=
  [(1, .pystr "N"),
   (2, .tup [.pair 43 1, .pair 28 1, .rat 28128 10000]),
   (3, .pystr "E"),
   (4, .tup [.pair 1 0])]

/-- A decoded image whose only EXIF tag is ExposureProgram = 7, where the
two settings variants emit different labels. -/
def imgProgram7 : DecodedImage :=
  ⟨⟨800, 600, 0⟩, [(34850, .num (.int 7))], [], []⟩

/-- A decoded image whose Make tag is the empty string, where the two basic
variants differ (None versus the empty string). -/
def imgEmptyMake : DecodedImage :=
  ⟨⟨800, 600, 0⟩, [(271, .pystr "")], [], []⟩

/-- The Make/Model tag at key k is absent or a nonempty string (the shapes
on which the two basic variants agree). -/
def goodStrTag (tags : TagDict) (k : Nat) : Bool :=
  match tagGet tags k with
  | none => true
  | some (.pystr s) => !s.isEmpty
  | some _ => false

/-- A tag on which the two settings variants behave identically: ISO must be
an integer (the bytes variant int()s it), and the four tags whose
conversion formats differ between the variants (FNumber, ExposureTime,
FocalLength, ExposureProgram) must be absent; everything else is free. -/
def benignSettingsTag (p : Nat × PyObj) : Bool :=
  if p.1 = 34855 then
    (match p.2 with | .num (.int _) => true | _ => false)
  else if p.1 = 33437 ∨ p.1 = 33434 ∨ p.1 = 37386 ∨ p.1 = 34850 then false
  else true

/-- A decode view of a healthy 800×600 image without EXIF. -/
def okDecoded : DecodedImage := ⟨⟨800, 600, 1⟩, [], [], []⟩

/-- A healthy JPEG file. -/
def goodFile : PyFile :=
  ⟨"/p/good.jpg", "good.jpg", ".jpg", true, true, .ok 12345,
   .ok (800, 600), .ok okDecoded⟩

/-- A nonexistent path. -/
def missingFile : PyFile :=
  ⟨"/p/none.jpg", "none.jpg", ".jpg", false, false, .error "ENOENT",
   .error "ENOENT", .error "ENOENT"⟩

/-- A zero-byte file. -/
def emptyFile : PyFile :=
  ⟨"/p/empty.jpg", "empty.jpg", ".jpg", true, true, .ok 0,
   .error "cannot identify image file", .error "cannot identify image file"⟩

/-- A directory. -/
def dirFile : PyFile :=
  ⟨"/p/photos", "photos", "", true, false, .ok 4096,
   .error "IsADirectoryError", .error "IsADirectoryError"⟩

/-- A file with an unsupported extension. -/
def badExtFile : PyFile :=
  ⟨"/p/notes.xyz", "notes.xyz", ".xyz", true, true, .ok 100,
   .error "cannot identify image file", .error "cannot identify image file"⟩

/-- A 50×50 image, below the 100×100 validator floor. -/
def smallImgFile : PyFile :=
  ⟨"/p/small.jpg", "small.jpg", ".jpg", true, true, .ok 900,
   .ok (50, 50), .ok ⟨⟨50, 50, 2⟩, [], [], []⟩⟩

/-! # Theorems -/

/-! ## Support lemmas: SHA-256 hex digests -/

theorem length_toBytesBE (k x : Nat) : (toBytesBE k x).length = k := by
  induction k generalizing x with
  | zero => rfl
  | succ n ih => simp [toBytesBE, ih]

theorem length_digestBytes (s : ShaState) : (digestBytes s).length = 32 := by
  simp [digestBytes, length_toBytesBE]

theorem length_sha256bytes (msg : List Nat) : (sha256bytes msg).length = 32 := by
  simp [sha256bytes, length_digestBytes]

theorem hexChar_mem (n : Nat) : hexChar n ∈ hexDigits := by
  unfold hexChar
  rcases Nat.lt_or_ge n 16 with h | h
  · interval_cases n <;> decide
  · have h16 : hexDigits.length ≤ n := by
      simpa [hexDigits] using h
    rw [List.getD_eq_default _ _ h16]
    decide

theorem byteHex_mem (b : Nat) : ∀ c ∈ byteHex b, c ∈ hexDigits := by
  intro c hc
  simp only [byteHex, List.mem_cons, List.not_mem_nil, or_false] at hc
  rcases hc with h | h <;> (subst h; exact hexChar_mem _)

theorem length_flatMap_byteHex (l : List Nat) :
    (l.flatMap byteHex).length = 2 * l.length := by
  induction l with
  | nil => rfl
  | cons a t ih => simp [List.flatMap_cons, ih, byteHex]; omega

theorem mem_flatMap_byteHex (l : List Nat) :
    ∀ c ∈ l.flatMap byteHex, c ∈ hexDigits := by
  intro c hc
  rcases List.mem_flatMap.mp hc with ⟨b, _, hcb⟩
  exact byteHex_mem b c hcb

theorem sha256hex_length (msg : List Nat) : (sha256hex msg).length = 64 := by
  show (sha256hexChars msg).length = 64
  unfold sha256hexChars
  rw [length_flatMap_byteHex, length_sha256bytes]

theorem sha256hex_lowercase_hex (msg : List Nat) :
    ∀ c ∈ (sha256hex msg).data, c ∈ hexDigits := by
  intro c hc
  exact mem_flatMap_byteHex _ c hc

/-! ## C1: hothash is the SHA-256 of exactly the final preview bytes -/

/-- Claim C1: for every generated hotpreview, the hothash field is the
SHA-256 hex digest (64 lowercase hex characters) of exactly the preview's
final encoded JPEG bytes; generation is deterministic for fixed inputs, so
identical inputs give byte-identical previews and identical hothash;
HothashCalculator.calculate is that same digest and verify succeeds exactly
on a matching digest. -/
theorem C1_hothash_of_final_bytes :
    (∀ (B : PILBackend) (img : Raster) (size : Nat × Nat) (quality : Nat),
      (generate_hotpreview B img size quality).hothash =
        HothashCalculator.calculate ((generate_hotpreview B img size quality).bytes)) ∧
    (∀ (B : PILBackend) (img : Raster) (size : Nat × Nat) (quality : Nat),
      ((generate_hotpreview B img size quality).hothash).length = 64 ∧
      ∀ c ∈ ((generate_hotpreview B img size quality).hothash).data,
        c ∈ hexDigits) ∧
    (∀ (B : PILBackend) (img : Raster) (size : Nat × Nat) (quality : Nat)
       (h1 h2 : HotPreview),
      h1 = generate_hotpreview B img size quality →
      h2 = generate_hotpreview B img size quality →
      h1.bytes = h2.bytes ∧ h1.hothash = h2.hothash) ∧
    (∀ b : List Nat, HothashCalculator.calculate b = sha256hex b) ∧
    (∀ (b : List Nat) (e : String),
      HothashCalculator.verify b e = true ↔ HothashCalculator.calculate b = e) := by
  refine ⟨?_, ?_, ?_, ?_, ?_⟩
  · intro B img size quality
    rfl
  · intro B img size quality
    exact ⟨sha256hex_length _, sha256hex_lowercase_hex _⟩
  · intro B img size quality h1 h2 e1 e2
    subst e1; subst e2; exact ⟨rfl, rfl⟩
  · intro b
    rfl
  · intro b e
    exact beq_iff_eq

/-- Witness for C1: the determinism and verification clauses at a concrete
backend, raster and digest. -/
theorem C1_witness :
    ((generate_hotpreview trivB ⟨8, 8, 3⟩ (150, 150) 85).bytes =
       (generate_hotpreview trivB ⟨8, 8, 3⟩ (150, 150) 85).bytes ∧
     (generate_hotpreview trivB ⟨8, 8, 3⟩ (150, 150) 85).hothash =
       (generate_hotpreview trivB ⟨8, 8, 3⟩ (150, 150) 85).hothash) ∧
    (HothashCalculator.verify [1, 2, 3] (HothashCalculator.calculate [1, 2, 3]) = true) := by
  constructor
  · exact (C1_hothash_of_final_bytes.2.2.1 trivB ⟨8, 8, 3⟩ (150, 150) 85 _ _ rfl rfl)
  · exact (C1_hothash_of_final_bytes.2.2.2.2 [1, 2, 3] _).mpr rfl

/-! ## Support lemmas: PIL thumbnail dimension arithmetic -/

theorem roundAspect_bounds (t : ℚ) (key : ℤ → ℚ) (m : ℤ)
    (hm : 1 ≤ m) (hceil : ⌈t⌉ ≤ m) :
    1 ≤ roundAspect t key ∧ roundAspect t key ≤ m := by
  unfold roundAspect
  constructor
  · exact le_max_right _ _
  · apply max_le _ hm
    split
    · exact le_trans (Int.floor_le_ceil t) hceil
    · exact hceil

theorem roundAspect_close (t : ℚ) (key : ℤ → ℚ) (ht : 0 < t) :
    |((roundAspect t key : ℤ) : ℚ) - t| < 1 := by
  unfold roundAspect
  have hfl : |((⌊t⌋ : ℤ) : ℚ) - t| < 1 := by
    rw [abs_lt]
    constructor
    · have := Int.lt_floor_add_one t
      linarith
    · have := Int.floor_le t
      linarith
  have hcl : |((⌈t⌉ : ℤ) : ℚ) - t| < 1 := by
    rw [abs_lt]
    constructor
    · have := Int.le_ceil t
      linarith
    · have := Int.ceil_lt_add_one t
      linarith
  set u : ℤ := if key ⌊t⌋ ≤ key ⌈t⌉ then ⌊t⌋ else ⌈t⌉ with hu
  rcases le_or_lt 1 u with h1 | h1
  · rw [max_eq_left h1]
    rw [hu]
    split
    · exact hfl
    · exact hcl
  · rw [max_eq_right (by omega)]
    have hufl : u = ⌊t⌋ ∨ u = ⌈t⌉ := by
      rw [hu]; split
      · exact Or.inl rfl
      · exact Or.inr rfl
    have htlt : t < 2 := by
      rcases hufl with h | h
      · have hf : ⌊t⌋ ≤ 0 := by omega
        have := Int.lt_floor_add_one t
        have : t < 1 := by
          have hc : ((⌊t⌋ : ℤ) : ℚ) ≤ 0 := by exact_mod_cast hf
          linarith [Int.lt_floor_add_one t]
        linarith
      · have hf : ⌈t⌉ ≤ 0 := by omega
        have hc : ((⌈t⌉ : ℤ) : ℚ) ≤ 0 := by exact_mod_cast hf
        have := Int.le_ceil t
        linarith
    rw [abs_lt]
    constructor <;> push_cast <;> linarith

theorem thumbnailSize_spec (w h x y : Nat)
    (hw : 1 ≤ w) (hh : 1 ≤ h) (hx : 1 ≤ x) (hy : 1 ≤ y) :
    1 ≤ (thumbnailSize w h x y).1 ∧ (thumbnailSize w h x y).1 ≤ (x : ℤ) ∧
    1 ≤ (thumbnailSize w h x y).2 ∧ (thumbnailSize w h x y).2 ≤ (y : ℤ) ∧
    |((thumbnailSize w h x y).1 : ℚ) * (h : ℚ) -
      ((thumbnailSize w h x y).2 : ℚ) * (w : ℚ)| < ((max w h : ℕ) : ℚ) := by
  have hwq : (0 : ℚ) < (w : ℚ) := by exact_mod_cast hw
  have hhq : (0 : ℚ) < (h : ℚ) := by exact_mod_cast hh
  have hxq : (0 : ℚ) < (x : ℚ) := by exact_mod_cast hx
  have hyq : (0 : ℚ) < (y : ℚ) := by exact_mod_cast hy
  have haspect : (0 : ℚ) < (w : ℚ) / (h : ℚ) := div_pos hwq hhq
  simp only [thumbnailSize]
  split_ifs with hg
  · -- wide box: x is rounded from y * aspect, y is kept
    dsimp only
    set t : ℚ := (y : ℚ) * ((w : ℚ) / (h : ℚ)) with hts
    have htpos : 0 < t := mul_pos hyq haspect
    have htx : t ≤ (x : ℚ) := by
      have := (le_div_iff hyq).mp hg
      linarith [this]
    have hceil : ⌈t⌉ ≤ (x : ℤ) := Int.ceil_le.mpr (by exact_mod_cast htx)
    have hxz : (1 : ℤ) ≤ (x : ℤ) := by exact_mod_cast hx
    obtain ⟨hb1, hb2⟩ := roundAspect_bounds t
      (fun n => |(w : ℚ) / (h : ℚ) - (n : ℚ) / (y : ℚ)|) (x : ℤ) hxz hceil
    refine ⟨hb1, hb2, by exact_mod_cast hy, le_refl _, ?_⟩
    have hclose := roundAspect_close t
      (fun n => |(w : ℚ) / (h : ℚ) - (n : ℚ) / (y : ℚ)|) htpos
    have hth : t * (h : ℚ) = (y : ℚ) * (w : ℚ) := by
      rw [hts]; field_simp
    have key : ((roundAspect t (fun n => |(w : ℚ) / (h : ℚ) - (n : ℚ) / (y : ℚ)|) : ℤ) : ℚ) * (h : ℚ) - (y : ℚ) * (w : ℚ) =
        (((roundAspect t (fun n => |(w : ℚ) / (h : ℚ) - (n : ℚ) / (y : ℚ)|) : ℤ) : ℚ) - t) * (h : ℚ) := by
      rw [sub_mul, hth]
    calc |((roundAspect t (fun n => |(w : ℚ) / (h : ℚ) - (n : ℚ) / (y : ℚ)|) : ℤ) : ℚ) * (h : ℚ) - (y : ℚ) * (w : ℚ)|
        = |(((roundAspect t (fun n => |(w : ℚ) / (h : ℚ) - (n : ℚ) / (y : ℚ)|) : ℤ) : ℚ) - t)| * |(h : ℚ)| := by
          rw [key, abs_mul]
      _ < 1 * (h : ℚ) := by
          rw [abs_of_pos hhq]
          exact mul_lt_mul_of_pos_right hclose hhq
      _ = (h : ℚ) := one_mul _
      _ ≤ ((max w h : ℕ) : ℚ) := by
          exact_mod_cast Nat.cast_le.mpr (le_max_right w h)
  · -- tall box: y is rounded from x / aspect, x is kept
    dsimp only
    push_neg at hg
    set t : ℚ := (x : ℚ) / ((w : ℚ) / (h : ℚ)) with hts
    have htpos : 0 < t := div_pos hxq haspect
    have hty : t ≤ (y : ℚ) := by
      have hxa : (x : ℚ) < ((w : ℚ) / (h : ℚ)) * (y : ℚ) := by
        have := (div_lt_iff hyq).mp hg
        linarith [this]
      have := (div_lt_iff haspect).mpr (by linarith : (x : ℚ) < (y : ℚ) * ((w : ℚ) / (h : ℚ)))
      exact le_of_lt this
    have hceil : ⌈t⌉ ≤ (y : ℤ) := Int.ceil_le.mpr (by exact_mod_cast hty)
    have hyz : (1 : ℤ) ≤ (y : ℤ) := by exact_mod_cast hy
    obtain ⟨hb1, hb2⟩ := roundAspect_bounds t
      (fun n => if n = 0 then 0 else |(w : ℚ) / (h : ℚ) - (x : ℚ) / (n : ℚ)|) (y : ℤ) hyz hceil
    refine ⟨by exact_mod_cast hx, le_refl _, hb1, hb2, ?_⟩
    have hclose := roundAspect_close t
      (fun n => if n = 0 then 0 else |(w : ℚ) / (h : ℚ) - (x : ℚ) / (n : ℚ)|) htpos
    have htw : t * (w : ℚ) = (x : ℚ) * (h : ℚ) := by
      rw [hts]; field_simp
    set v : ℚ := ((roundAspect t (fun n => if n = 0 then 0 else |(w : ℚ) / (h : ℚ) - (x : ℚ) / (n : ℚ)|) : ℤ) : ℚ) with hv
    have key : (x : ℚ) * (h : ℚ) - v * (w : ℚ) = (t - v) * (w : ℚ) := by
      rw [sub_mul, htw]
    calc |(x : ℚ) * (h : ℚ) - v * (w : ℚ)|
        = |t - v| * |(w : ℚ)| := by rw [key, abs_mul]
      _ = |v - t| * (w : ℚ) := by rw [abs_sub_comm, abs_of_pos hwq]
      _ < 1 * (w : ℚ) := mul_lt_mul_of_pos_right hclose hwq
      _ = (w : ℚ) := one_mul _
      _ ≤ ((max w h : ℕ) : ℚ) := by
          exact_mod_cast Nat.cast_le.mpr (le_max_left w h)

/-- Dimension behaviour of the embedded Image.thumbnail, for a resampling
backend that honours the requested size. -/
theorem thumbnail_spec (B : PILBackend) (r : Raster) (size : Nat × Nat)
    (hres : ∀ s d, (B.resample s d).width = d.1 ∧ (B.resample s d).height = d.2)
    (hw : 1 ≤ r.width) (hh : 1 ≤ r.height)
    (hx : 1 ≤ size.1) (hy : 1 ≤ size.2) :
    (thumbnail B r size).width ≤ size.1 ∧
    (thumbnail B r size).height ≤ size.2 ∧
    |((thumbnail B r size).width : ℚ) * (r.height : ℚ) -
      ((thumbnail B r size).height : ℚ) * (r.width : ℚ)| <
      ((max r.width r.height : ℕ) : ℚ) ∧
    (r.width ≤ size.1 → r.height ≤ size.2 → thumbnail B r size = r) := by
  unfold thumbnail
  split_ifs with hfit
  · refine ⟨hfit.1, hfit.2, ?_, fun _ _ => rfl⟩
    have hz : ((r.width : ℚ) * (r.height : ℚ) - (r.height : ℚ) * (r.width : ℚ)) = 0 := by
      ring
    rw [hz, abs_zero]
    have : (1 : ℕ) ≤ max r.width r.height := le_trans hw (le_max_left _ _)
    exact_mod_cast Nat.lt_of_lt_of_le Nat.zero_lt_one this
  · obtain ⟨h1, h2, h3, h4, h5⟩ := thumbnailSize_spec r.width r.height size.1 size.2 hw hh hx hy
    obtain ⟨hrw, hrh⟩ := hres r ((thumbnailSize r.width r.height size.1 size.2).1.toNat,
      (thumbnailSize r.width r.height size.1 size.2).2.toNat)
    rw [hrw, hrh]
    have hc1 : (((thumbnailSize r.width r.height size.1 size.2).1.toNat : ℤ)) =
        (thumbnailSize r.width r.height size.1 size.2).1 :=
      Int.toNat_of_nonneg (by omega)
    have hc2 : (((thumbnailSize r.width r.height size.1 size.2).2.toNat : ℤ)) =
        (thumbnailSize r.width r.height size.1 size.2).2 :=
      Int.toNat_of_nonneg (by omega)
    refine ⟨?_, ?_, ?_, ?_⟩
    · have := Int.toNat_le.mpr h2
      simpa using this
    · have := Int.toNat_le.mpr h4
      simpa using this
    · have e1 : (((thumbnailSize r.width r.height size.1 size.2).1.toNat : ℕ) : ℚ) =
          (((thumbnailSize r.width r.height size.1 size.2).1 : ℤ) : ℚ) := by
        exact_mod_cast congrArg (fun z : ℤ => (z : ℚ)) hc1
      have e2 : (((thumbnailSize r.width r.height size.1 size.2).2.toNat : ℕ) : ℚ) =
          (((thumbnailSize r.width r.height size.1 size.2).2 : ℤ) : ℚ) := by
        exact_mod_cast congrArg (fun z : ℤ => (z : ℚ)) hc2
      rw [e1, e2]
      exact h5
    · intro hfw hfh
      exact absurd ⟨hfw, hfh⟩ hfit

/-! ## C2: preview dimension invariants -/

/-- Claim C2: with a resampler that honours requested dimensions, the
hotpreview of any image fits the 150×150 hot box and preserves the
EXIF-corrected aspect ratio to within rounding (the cross-product of the
output dimensions with the corrected dimensions differs by less than the
larger corrected dimension); the coldpreview fits its requested max
dimension; and a corrected source already inside the target box keeps
exactly its dimensions (no upscaling), in particular a 100×100 corrected
source through cold at 1920 is exactly 100×100. -/
theorem C2_preview_dimension_invariants
    (B : PILBackend) (img : Raster)
    (hres : ∀ s d, (B.resample s d).width = d.1 ∧ (B.resample s d).height = d.2)
    (hw : 1 ≤ (B.exif_transpose img).width)
    (hh : 1 ≤ (B.exif_transpose img).height) :
    (∀ quality,
      (generate_hotpreview B img DEFAULT_HOT_SIZE quality).width ≤ 150 ∧
      (generate_hotpreview B img DEFAULT_HOT_SIZE quality).height ≤ 150 ∧
      |((generate_hotpreview B img DEFAULT_HOT_SIZE quality).width : ℚ) *
          ((B.exif_transpose img).height : ℚ) -
        ((generate_hotpreview B img DEFAULT_HOT_SIZE quality).height : ℚ) *
          ((B.exif_transpose img).width : ℚ)| <
        ((max (B.exif_transpose img).width (B.exif_transpose img).height : ℕ) : ℚ)) ∧
    (∀ max_size quality, 1 ≤ max_size →
      (generate_coldpreview B img max_size quality).width ≤ max_size ∧
      (generate_coldpreview B img max_size quality).height ≤ max_size) ∧
    (∀ max_size quality,
      (B.exif_transpose img).width ≤ max_size →
      (B.exif_transpose img).height ≤ max_size →
      (generate_coldpreview B img max_size quality).width =
        (B.exif_transpose img).width ∧
      (generate_coldpreview B img max_size quality).height =
        (B.exif_transpose img).height) ∧
    (∀ quality,
      (B.exif_transpose img).width ≤ 150 →
      (B.exif_transpose img).height ≤ 150 →
      (generate_hotpreview B img DEFAULT_HOT_SIZE quality).width =
        (B.exif_transpose img).width ∧
      (generate_hotpreview B img DEFAULT_HOT_SIZE quality).height =
        (B.exif_transpose img).height) ∧
    (∀ quality,
      (B.exif_transpose img).width = 100 →
      (B.exif_transpose img).height = 100 →
      (generate_coldpreview B img 1920 quality).width = 100 ∧
      (generate_coldpreview B img 1920 quality).height = 100) := by
  have hotSpec := thumbnail_spec B (B.exif_transpose img)
    DEFAULT_HOT_SIZE hres hw hh (by norm_num [DEFAULT_HOT_SIZE]) (by norm_num [DEFAULT_HOT_SIZE])
  refine ⟨?_, ?_, ?_, ?_, ?_⟩
  · intro quality
    obtain ⟨h1, h2, h3, _⟩ := hotSpec
    exact ⟨h1, h2, h3⟩
  · intro max_size quality hms
    obtain ⟨h1, h2, _, _⟩ := thumbnail_spec B (B.exif_transpose img)
      (max_size, max_size) hres hw hh hms hms
    exact ⟨h1, h2⟩
  · intro max_size quality hfw hfh
    have hms : 1 ≤ max_size := le_trans hw hfw
    obtain ⟨_, _, _, h4⟩ := thumbnail_spec B (B.exif_transpose img)
      (max_size, max_size) hres hw hh hms hms
    have := h4 hfw hfh
    constructor
    · show (thumbnail B (B.exif_transpose img) (max_size, max_size)).width = _
      rw [this]
    · show (thumbnail B (B.exif_transpose img) (max_size, max_size)).height = _
      rw [this]
  · intro quality hfw hfh
    obtain ⟨_, _, _, h4⟩ := hotSpec
    have := h4 hfw hfh
    constructor
    · show (thumbnail B (B.exif_transpose img) DEFAULT_HOT_SIZE).width = _
      rw [this]
    · show (thumbnail B (B.exif_transpose img) DEFAULT_HOT_SIZE).height = _
      rw [this]
  · intro quality hfw hfh
    obtain ⟨_, _, _, h4⟩ := thumbnail_spec B (B.exif_transpose img)
      (1920, 1920) hres hw hh (by norm_num) (by norm_num)
    have heq := h4 (by omega) (by omega)
    constructor
    · show (thumbnail B (B.exif_transpose img) (1920, 1920)).width = _
      rw [heq, hfw]
    · show (thumbnail B (B.exif_transpose img) (1920, 1920)).height = _
      rw [heq, hfh]

/-- Witness for C2: the trivial backend on a 100×100 raster. -/
theorem C2_witness :
    (generate_coldpreview trivB ⟨100, 100, 0⟩ 1920 90).width = 100 ∧
    (generate_coldpreview trivB ⟨100, 100, 0⟩ 1920 90).height = 100 := by
  exact (C2_preview_dimension_invariants trivB ⟨100, 100, 0⟩
    (fun s d => ⟨rfl, rfl⟩) (by decide) (by decide)).2.2.2.2 90 rfl rfl

/-! ## C3: GPS coordinate conversion -/

/-- Claim C3: _convert_to_decimal computes degrees + minutes/60 +
seconds/3600 for DMS and DM tuples (seconds 0 when omitted) and for bare
decimals, negating exactly when the hemisphere reference is S or W; the DMS
triple (43, 28, 2.8128) with reference N gives 43.467448 within 0.0001 and
reference S gives its negation. -/
theorem C3_convert_to_decimal :
    (∀ (a b c : PyNum) (da ma sa : ℚ) (ref : Option PyObj),
      gpsPart a = some da → gpsPart b = some ma → gpsPart c = some sa →
      convert_to_decimal (.tup [a, b, c]) ref =
        some (if isSouthWest ref then -(da + ma / 60 + sa / 3600)
              else da + ma / 60 + sa / 3600)) ∧
    (∀ (a b : PyNum) (da ma : ℚ) (ref : Option PyObj),
      gpsPart a = some da → gpsPart b = some ma →
      convert_to_decimal (.tup [a, b]) ref =
        some (if isSouthWest ref then -(da + ma / 60 + 0 / 3600)
              else da + ma / 60 + 0 / 3600)) ∧
    (∀ (v : PyNum) (q : ℚ) (ref : Option PyObj),
      v.pyFloat = some q →
      convert_to_decimal (.tup [v]) ref =
        some (if isSouthWest ref then -q else q)) ∧
    (convert_to_decimal (.tup [.pair 43 1, .pair 28 1, .rat 28128 10000])
        (some (.pystr "N")) = some (5433431 / 125000) ∧
      |(5433431 : ℚ) / 125000 - 43467448 / 1000000| ≤ 1 / 10000) ∧
    (convert_to_decimal (.tup [.pair 43 1, .pair 28 1, .rat 28128 10000])
        (some (.pystr "S")) = some (-(5433431 / 125000))) := by
  refine ⟨?_, ?_, ?_, ⟨?_, by norm_num⟩, ?_⟩
  · intro a b c da ma sa ref ha hb hc
    simp [convert_to_decimal, PyObj.truthy, ha, hb, hc]
  · intro a b da ma ref ha hb
    simp [convert_to_decimal, PyObj.truthy, ha, hb]
  · intro v q ref hv
    simp [convert_to_decimal, PyObj.truthy, hv]
  · simp [convert_to_decimal, PyObj.truthy, gpsPart, PyNum.pyFloat, isSouthWest]
    norm_num
  · simp [convert_to_decimal, PyObj.truthy, gpsPart, PyNum.pyFloat, isSouthWest]
    norm_num

/-- Witness for C3: the DM pair (59, 30) with reference W converts to
-59.5. -/
theorem C3_witness :
    convert_to_decimal (.tup [.int 59, .int 30]) (some (.pystr "W")) =
      some (-(59 + 30 / 60 + 0 / 3600)) := by
  have := C3_convert_to_decimal.2.1 (.int 59) (.int 30) 59 30
    (some (.pystr "W")) rfl rfl
  simpa [isSouthWest] using this

/-! ## C4: GPS pair validation -/

/-- Counterexample to C4: on gpsPartialIfd the extracted pair has latitude
present and longitude absent — the claim that the result never has exactly
one coordinate present is false. The pair validation only runs when BOTH
conversions succeed; a single failed conversion leaves the other coordinate
in place. -/
theorem C4_counterexample :
    (extract_gps_from_exif gpsPartialIfd).lat = some (5433431 / 125000) ∧
    (extract_gps_from_exif gpsPartialIfd).lon = none := by
  have hlon : convert_to_decimal (.tup [.pair 1 0]) (tagGet gpsPartialIfd 3) =
      none := by
    simp [convert_to_decimal, PyObj.truthy, gpsPart, PyNum.pyFloat,
      gpsPartialIfd, tagGet]
  have hlat : convert_to_decimal
      (.tup [.pair 43 1, .pair 28 1, .rat 28128 10000])
      (tagGet gpsPartialIfd 1) = some (5433431 / 125000) := by
    simp [convert_to_decimal, PyObj.truthy, gpsPart, PyNum.pyFloat,
      isSouthWest, gpsPartialIfd, tagGet]
    norm_num
  have hll : gpsLatLon gpsPartialIfd = (some (5433431 / 125000), none) := by
    unfold gpsLatLon
    rw [show tagGet gpsPartialIfd 2 =
        some (.tup [.pair 43 1, .pair 28 1, .rat 28128 10000]) from rfl,
      show tagGet gpsPartialIfd 4 = some (.tup [.pair 1 0]) from rfl]
    simp only [PyObj.truthy, hlat, hlon]
    rfl
  have h6 : tagGet gpsPartialIfd 6 = none := rfl
  have h7 : tagGet gpsPartialIfd 7 = none := rfl
  have hbody : extract_gps_from_exif gpsPartialIfd =
      { lat := some (5433431 / 125000), lon := none, alt := none,
        time := none, date := tagGet gpsPartialIfd 29,
        datum := tagGet gpsPartialIfd 18 } := by
    have hne : gpsPartialIfd.isEmpty = false := rfl
    unfold extract_gps_from_exif extract_gps_body
    simp [hne, gpsAltitude, gpsTimestamp, h6, h7, hll, Option.bind]
  rw [hbody]
  exact ⟨rfl, rfl⟩

/-- Claim C4 as amended: pairs in which BOTH coordinates convert are
validated as a unit — an out-of-range or (0,0) pair leaves both coordinates
absent, a valid pair keeps both; but when exactly one coordinate fails
conversion, the converted one remains present, so a partial pair is
possible. (Tags 6 and 7 are assumed absent so the altitude/timestamp blocks
cannot raise and blank the whole result.) -/
theorem C4_amended (gps : TagDict) (latv lonv : PyObj) (la : ℚ)
    (h6 : tagGet gps 6 = none) (h7 : tagGet gps 7 = none)
    (hlat : tagGet gps 2 = some latv) (hlon : tagGet gps 4 = some lonv)
    (htl : latv.truthy = true) (htn : lonv.truthy = true)
    (hca : convert_to_decimal latv (tagGet gps 1) = some la) :
    (∀ lo : ℚ, convert_to_decimal lonv (tagGet gps 3) = some lo →
      (¬(-90 ≤ la ∧ la ≤ 90 ∧ -180 ≤ lo ∧ lo ≤ 180) ∨ (la = 0 ∧ lo = 0) →
        (extract_gps_from_exif gps).lat = none ∧
        (extract_gps_from_exif gps).lon = none) ∧
      ((-90 ≤ la ∧ la ≤ 90 ∧ -180 ≤ lo ∧ lo ≤ 180) → ¬(la = 0 ∧ lo = 0) →
        (extract_gps_from_exif gps).lat = some la ∧
        (extract_gps_from_exif gps).lon = some lo)) ∧
    (convert_to_decimal lonv (tagGet gps 3) = none →
      (extract_gps_from_exif gps).lat = some la ∧
      (extract_gps_from_exif gps).lon = none) := by
  have hne : gps.isEmpty = false := by
    cases gps with
    | nil => simp [tagGet] at hlat
    | cons p t => rfl
  have hbody : ∀ ll : Option ℚ × Option ℚ, gpsLatLon gps = ll →
      extract_gps_from_exif gps =
        { lat := ll.1, lon := ll.2, alt := none, time := none,
          date := tagGet gps 29, datum := tagGet gps 18 } := by
    intro ll hll
    unfold extract_gps_from_exif extract_gps_body
    rw [hne]
    simp [gpsAltitude, gpsTimestamp, h6, h7, hll, Option.bind]
  constructor
  · intro lo hcb
    constructor
    · intro hbad
      have hll : gpsLatLon gps = (none, none) := by
        unfold gpsLatLon
        rw [hlat, hlon]
        simp only [htl, htn, Bool.and_self, if_true, hca, hcb]
        rcases hbad with h | h
        · rw [if_neg h]
        · rcases Classical.em (-90 ≤ la ∧ la ≤ 90 ∧ -180 ≤ lo ∧ lo ≤ 180) with hr | hr
          · rw [if_pos hr, if_pos h]
          · rw [if_neg hr]
      rw [hbody _ hll]
      exact ⟨rfl, rfl⟩
    · intro hrange hnz
      have hll : gpsLatLon gps = (some la, some lo) := by
        unfold gpsLatLon
        rw [hlat, hlon]
        simp only [htl, htn, Bool.and_self, if_true, hca, hcb]
        rw [if_pos hrange, if_neg hnz]
      rw [hbody _ hll]
      exact ⟨rfl, rfl⟩
  · intro hcb
    have hll : gpsLatLon gps = (some la, none) := by
      unfold gpsLatLon
      rw [hlat, hlon]
      simp only [htl, htn, Bool.and_self, if_true, hca, hcb]
    rw [hbody _ hll]
    exact ⟨rfl, rfl⟩

/-- Witness for C4_amended: a concrete valid IFD keeps both coordinates. -/
theorem C4_amended_witness :
    (extract_gps_from_exif
      [(1, .pystr "N"), (2, .tup [.int 43]), (3, .pystr "E"),
       (4, .tup [.int 10])]).lat = some 43 ∧
    (extract_gps_from_exif
      [(1, .pystr "N"), (2, .tup [.int 43]), (3, .pystr "E"),
       (4, .tup [.int 10])]).lon = some 10 := by
  exact ((C4_amended
    [(1, .pystr "N"), (2, .tup [.int 43]), (3, .pystr "E"),
     (4, .tup [.int 10])]
    (.tup [.int 43]) (.tup [.int 10]) 43
    rfl rfl rfl rfl rfl rfl (by decide)).1 10 (by decide)).2
    (by norm_num) (by norm_num)

/-! ## C5: the 4×4 too-small floor (spec-modelled) -/

/-- Claim C5 (spec-modelled: the from_image preview entry points are called
by service/main.py and exercised by tests/test_service_api.py but missing
from the src snapshot of preview/generator.py): a source raster below the
4×4 floor in either dimension is rejected with the typed too-small error, a
category distinct from decode failure; rasters at or above the floor
produce previews. -/
theorem C5_too_small_rejection :
    (∀ (B : PILBackend) (img : Raster) (size : Nat × Nat) (quality : Nat),
      img.width < 4 ∨ img.height < 4 →
      generate_hotpreview_from_image B img size quality =
        .error (.tooSmall img.width img.height)) ∧
    (∀ (B : PILBackend) (img : Raster) (max_size quality : Nat),
      img.width < 4 ∨ img.height < 4 →
      generate_coldpreview_from_image B img max_size quality =
        .error (.tooSmall img.width img.height)) ∧
    (∀ (B : PILBackend) (img : Raster) (size : Nat × Nat) (quality : Nat),
      4 ≤ img.width → 4 ≤ img.height →
      generate_hotpreview_from_image B img size quality =
        .ok (renderHot B img size quality)) ∧
    (∀ (w h : Nat) (msg : String),
      PreviewError.tooSmall w h ≠ PreviewError.decodeFailure msg) := by
  refine ⟨?_, ?_, ?_, ?_⟩
  · intro B img size quality hsmall
    unfold generate_hotpreview_from_image
    rw [if_pos hsmall]
  · intro B img max_size quality hsmall
    unfold generate_coldpreview_from_image
    rw [if_pos hsmall]
  · intro B img size quality hw hh
    unfold generate_hotpreview_from_image
    rw [if_neg (by omega)]
  · intro w h msg
    exact fun hcontra => PreviewError.noConfusion hcontra

/-- Witness for C5: a 3×3 raster is rejected with the typed error. -/
theorem C5_witness :
    generate_hotpreview_from_image trivB ⟨3, 3, 0⟩ (150, 150) 85 =
      .error (.tooSmall 3 3) := by
  exact C5_too_small_rejection.1 trivB ⟨3, 3, 0⟩ (150, 150) 85 (Or.inl (by decide))

/-! ## C6: path versus bytes extraction -/

theorem tagGet_mem {l : TagDict} {k : Nat} {v : PyObj}
    (h : tagGet l k = some v) : (k, v) ∈ l := by
  unfold tagGet at h
  cases hf : List.find? (fun p => p.1 == k) l with
  | none => rw [hf] at h; simp at h
  | some p =>
      rw [hf] at h
      simp at h
      have hm := List.mem_of_find?_eq_some hf
      have hp : p.1 = k := by simpa using List.find?_some hf
      cases p with
      | mk a b =>
          cases h
          cases hp
          exact hm

theorem benign_tagGet_none {l : TagDict}
    (hall : ∀ p ∈ l, benignSettingsTag p = true) {k : Nat}
    (hk : k = 33437 ∨ k = 33434 ∨ k = 37386 ∨ k = 34850) :
    tagGet l k = none := by
  cases h : tagGet l k with
  | none => rfl
  | some v =>
      exfalso
      have hb := hall _ (tagGet_mem h)
      rcases hk with rfl | rfl | rfl | rfl <;> simp [benignSettingsTag] at hb

theorem benign_tagGet_iso {l : TagDict}
    (hall : ∀ p ∈ l, benignSettingsTag p = true) :
    tagGet l 34855 = none ∨
    ∃ n : ℤ, tagGet l 34855 = some (.num (.int n)) := by
  cases h : tagGet l 34855 with
  | none => exact Or.inl rfl
  | some v =>
      right
      have hb := hall _ (tagGet_mem h)
      simp only [benignSettingsTag, if_pos rfl] at hb
      cases v with
      | num n =>
          cases n with
          | int m => exact ⟨m, rfl⟩
          | float q => simp at hb
          | rat a b => simp at hb
          | pair a b => simp at hb
      | pystr s => simp at hb
      | tup t => simp at hb
      | pybytes b => simp at hb

theorem settingsTail_table_irrel (t1 t2 : List (ℤ × String)) (tags : TagDict)
    (r : CameraSettings) (h : tagGet tags 34850 = none) :
    settingsTail t1 tags r = settingsTail t2 tags r := by
  simp [settingsTail, h]

/-- Counterexample to C6: for identical decoded bytes the path and bytes
variants disagree — ExposureProgram 7 labels as Portrait Mode versus
Portrait, and an empty-string Make tag becomes None versus the empty
string. -/
theorem C6_counterexample :
    (extract_camera_settings (.ok imgProgram7) ≠
       extract_camera_settings_from_bytes (.ok imgProgram7)) ∧
    ((extract_camera_settings (.ok imgProgram7)).exposure_program =
       some (.pystr "Portrait Mode")) ∧
    ((extract_camera_settings_from_bytes (.ok imgProgram7)).exposure_program =
       some (.pystr "Portrait")) ∧
    (extract_basic (.ok imgEmptyMake) ≠
       extract_basic_from_bytes (.ok imgEmptyMake)) ∧
    ((extract_basic (.ok imgEmptyMake)).camera_make = none) ∧
    ((extract_basic_from_bytes (.ok imgEmptyMake)).camera_make = some "") := by
  refine ⟨by decide, by decide, by decide, by decide, by decide, by decide⟩

/-- Claim C6 as amended: the two extraction forms agree on identical decoded
bytes only on a restricted tag shape — Make/Model absent or nonempty
strings (an empty string yields None in the path form but the empty string
in the bytes form), ISO an integer, and the FNumber, ExposureTime,
FocalLength and ExposureProgram tags absent (their conversions and label
tables differ between the forms); under those restrictions both
BasicMetadata and CameraSettings coincide field for field. -/
theorem C6_amended (img : DecodedImage)
    (h271 : goodStrTag img.tags 271 = true)
    (h272 : goodStrTag img.tags 272 = true)
    (hall1 : ∀ p ∈ img.tags, benignSettingsTag p = true)
    (hall2 : ∀ p ∈ img.exifIfd, benignSettingsTag p = true) :
    extract_basic (.ok img) = extract_basic_from_bytes (.ok img) ∧
    extract_camera_settings (.ok img) =
      extract_camera_settings_from_bytes (.ok img) := by
  constructor
  · simp only [extract_basic, extract_basic_from_bytes]
    cases hE : img.tags.isEmpty with
    | true => simp [hE]
    | false =>
        simp only [hE, Bool.false_eq_true, if_false]
        unfold basicMakeStep
        unfold goodStrTag at h271 h272
        cases h1 : tagGet img.tags 271 with
        | none =>
            unfold basicModelStep
            cases h2 : tagGet img.tags 272 with
            | none => rfl
            | some v =>
                rw [h2] at h272
                cases v with
                | pystr s =>
                    simp only [Bool.not_eq_true'] at h272
                    simp [stripField, PyObj.truthy, h272, pyObjStr]
                | num n => simp at h272
                | tup t => simp at h272
                | pybytes b => simp at h272
        | some v =>
            rw [h1] at h271
            cases v with
            | pystr s =>
                simp only [Bool.not_eq_true'] at h271
                simp only [stripField, PyObj.truthy, h271, Bool.not_false,
                  if_true, pyObjStr]
                unfold basicModelStep
                cases h2 : tagGet img.tags 272 with
                | none => rfl
                | some v2 =>
                    rw [h2] at h272
                    cases v2 with
                    | pystr s2 =>
                        simp only [Bool.not_eq_true'] at h272
                        simp [stripField, PyObj.truthy, h272, pyObjStr]
                    | num n => simp at h272
                    | tup t => simp at h272
                    | pybytes b => simp at h272
            | num n => simp at h271
            | tup t => simp at h271
            | pybytes b => simp at h271
  · simp only [extract_camera_settings, extract_camera_settings_from_bytes]
    cases hE : img.tags.isEmpty with
    | true => simp [hE]
    | false =>
        simp only [hE, Bool.false_eq_true, if_false]
        have hallm : ∀ p ∈ mergeIfd img.tags img.exifIfd,
            benignSettingsTag p = true := by
          intro p hp
          unfold mergeIfd at hp
          rcases List.mem_append.mp hp with h | h
          · exact hall1 _ h
          · exact hall2 _ (List.mem_of_mem_filter h)
        have e1 := benign_tagGet_none hallm (Or.inl rfl)
        have e2 := benign_tagGet_none hallm (Or.inr (Or.inl rfl))
        have e3 := benign_tagGet_none hallm (Or.inr (Or.inr (Or.inl rfl)))
        have e4 := benign_tagGet_none hallm (Or.inr (Or.inr (Or.inr rfl)))
        rcases benign_tagGet_iso hallm with hiso | ⟨n, hiso⟩ <;>
          · simp only [stepField, rawField, e1, e2, e3, e4, hiso, isoBytes,
              PyNum.pyInt, Option.map_some]
            cases hfl : tagGet (mergeIfd img.tags img.exifIfd) 37385 with
            | none =>
                simp only [hfl]
                exact settingsTail_table_irrel _ _ _ _ e4
            | some v =>
                simp only [hfl]
                cases hlab : flashLabel v with
                | none =>
                    simp only [hlab]
                    try rfl
                | some out =>
                    simp only [hlab]
                    try exact settingsTail_table_irrel _ _ _ _ e4

/-- Witness for C6_amended: a Canon image with integer ISO. -/
theorem C6_amended_witness :
    extract_basic (.ok ⟨⟨800, 600, 0⟩,
        [(271, .pystr "Canon"), (34855, .num (.int 200))], [], []⟩) =
      extract_basic_from_bytes (.ok ⟨⟨800, 600, 0⟩,
        [(271, .pystr "Canon"), (34855, .num (.int 200))], [], []⟩) ∧
    extract_camera_settings (.ok ⟨⟨800, 600, 0⟩,
        [(271, .pystr "Canon"), (34855, .num (.int 200))], [], []⟩) =
      extract_camera_settings_from_bytes (.ok ⟨⟨800, 600, 0⟩,
        [(271, .pystr "Canon"), (34855, .num (.int 200))], [], []⟩) := by
  exact C6_amended ⟨⟨800, 600, 0⟩,
    [(271, .pystr "Canon"), (34855, .num (.int 200))], [], []⟩
    (by decide) (by decide) (by decide) (by decide)

/-! ## C7 support: first-match semantics of findSome? -/

theorem findSome?_eq_none_of {α β : Type} (l : List α) (f : α → Option β)
    (h : ∀ a ∈ l, f a = none) : l.findSome? f = none := by
  induction l with
  | nil => rfl
  | cons a t ih =>
      simp only [List.findSome?]
      rw [h a (List.mem_cons_self a t)]
      exact ih (fun b hb => h b (List.mem_cons_of_mem a hb))

theorem findSome?_first {α β : Type} (l : List α) (f : α → Option β) :
    ∀ (i : Nat) (a : α) (b : β), l[i]? = some a → f a = some b →
    (∀ j, j < i → ∀ c, l[j]? = some c → f c = none) →
    l.findSome? f = some b := by
  induction l with
  | nil => intro i a b h _ _; simp at h
  | cons x t ih =>
      intro i a b hga hfa hprev
      cases i with
      | zero =>
          simp only [List.getElem?_cons_zero, Option.some.injEq] at hga
          subst hga
          simp only [List.findSome?]
          rw [hfa]
      | succ n =>
          have hx : f x = none :=
            hprev 0 (Nat.succ_pos n) x List.getElem?_cons_zero
          simp only [List.findSome?]
          rw [hx]
          exact ih n a b (by simpa using hga) hfa
            (fun j hj c hc =>
              hprev (j + 1) (Nat.succ_lt_succ hj) c (by simpa using hc))


/-! ## C7: timestamp probing and datetime normalization -/

/-- Claim C7: the capture timestamp is probed from DateTimeOriginal (36867),
then DateTimeDigitized (36868), then DateTime (306), the first non-empty
value winning; that value is normalized by trying the fixed ordered format
list, the first matching format winning; and when no format matches, the
raw string is returned unmodified. Concretely, the standard EXIF form
normalizes to ISO-8601 and a non-date string passes through unchanged. -/
theorem C7_timestamp_probing_and_formats :
    (∀ (tags : TagDict) (v : PyObj),
      tagGet tags 36867 = some v → v.truthy = true →
      probe_taken_at datetimeTags tags = some (standardizePy v)) ∧
    (∀ (tags : TagDict) (v : PyObj),
      (tagGet tags 36867 = none ∨
        ∃ u, tagGet tags 36867 = some u ∧ u.truthy = false) →
      tagGet tags 36868 = some v → v.truthy = true →
      probe_taken_at datetimeTags tags = some (standardizePy v)) ∧
    (∀ (tags : TagDict) (v : PyObj),
      (tagGet tags 36867 = none ∨
        ∃ u, tagGet tags 36867 = some u ∧ u.truthy = false) →
      (tagGet tags 36868 = none ∨
        ∃ u, tagGet tags 36868 = some u ∧ u.truthy = false) →
      tagGet tags 306 = some v → v.truthy = true →
      probe_taken_at datetimeTags tags = some (standardizePy v)) ∧
    (∀ tags : TagDict,
      (tagGet tags 36867 = none ∨
        ∃ u, tagGet tags 36867 = some u ∧ u.truthy = false) →
      (tagGet tags 36868 = none ∨
        ∃ u, tagGet tags 36868 = some u ∧ u.truthy = false) →
      (tagGet tags 306 = none ∨
        ∃ u, tagGet tags 306 = some u ∧ u.truthy = false) →
      probe_taken_at datetimeTags tags = none) ∧
    (∀ s : String,
      (∀ f ∈ formatsList, strptime7 f (cleanDtStr s) = none) →
      standardize_datetime s = s) ∧
    (∀ (s : String) (i : Nat) (f : List FTok) (t : PyDateTime),
      formatsList[i]? = some f → strptime7 f (cleanDtStr s) = some t →
      (∀ j, j < i → ∀ g, formatsList[j]? = some g →
        strptime7 g (cleanDtStr s) = none) →
      standardize_datetime s = isoformat t) ∧
    (standardize_datetime "2024:07:15 14:30:00" = "2024-07-15T14:30:00") ∧
    (standardize_datetime "nineteen eighty-five" = "nineteen eighty-five") := by
  refine ⟨?_, ?_, ?_, ?_, ?_, ?_, by decide, by decide⟩
  · intro tags v h ht
    simp [probe_taken_at, datetimeTags, h, ht]
  · intro tags v h1 h ht
    rcases h1 with h1 | ⟨u, hu, hut⟩
    · simp [probe_taken_at, datetimeTags, h1, h, ht]
    · simp [probe_taken_at, datetimeTags, hu, hut, h, ht]
  · intro tags v h1 h2 h ht
    rcases h1 with h1 | ⟨u, hu, hut⟩ <;>
      rcases h2 with h2 | ⟨u2, hu2, hut2⟩ <;>
        simp_all [probe_taken_at, datetimeTags]
  · intro tags h1 h2 h3
    rcases h1 with h1 | ⟨u, hu, hut⟩ <;>
      rcases h2 with h2 | ⟨u2, hu2, hut2⟩ <;>
        rcases h3 with h3 | ⟨u3, hu3, hut3⟩ <;>
          simp_all [probe_taken_at, datetimeTags]
  · intro s hnone
    unfold standardize_datetime
    cases hs : s.isEmpty with
    | true => rw [if_pos rfl]
    | false =>
        rw [if_neg (by simp [hs])]
        rw [findSome?_eq_none_of _ _ (fun f hf => hnone f hf)]
  · intro s i f t hif hft hprev
    unfold standardize_datetime
    have hfs : formatsList.findSome? (fun f => strptime7 f (cleanDtStr s)) =
        some t := findSome?_first _ _ i f t hif hft hprev
    cases hs : s.isEmpty with
    | true =>
        exfalso
        have hse : s = "" := (String.isEmpty_iff s).mp hs
        subst hse
        have hnone : ∀ g ∈ formatsList, strptime7 g (cleanDtStr "") = none := by
          decide
        rw [findSome?_eq_none_of _ _ hnone] at hfs
        cases hfs
    | false =>
        rw [if_neg (by simp [hs])]
        rw [hfs]

/-- Witness for C7: the probing and normalization at a concrete tag set. -/
theorem C7_witness :
    probe_taken_at datetimeTags
      [(306, .pystr "2024:07:15 14:30:00"), (36868, .pystr "")] =
      some (.pystr "2024-07-15T14:30:00") := by
  have h := C7_timestamp_probing_and_formats.2.2.1
    [(306, .pystr "2024:07:15 14:30:00"), (36868, .pystr "")]
    (.pystr "2024:07:15 14:30:00")
    (Or.inl (by decide))
    (Or.inr ⟨.pystr "", by decide, by decide⟩)
    (by decide) (by decide)
  rw [h]
  decide

/-! ## C8: validator gating -/

/-- Claim C8: validate_file checks its gates sequentially and
short-circuits on the first failure, in the order existence, regular file,
size (over-limit then empty), supported extension, container open,
dimension floor then ceiling; every distinct failure yields Error with its
distinct non-empty reason string, and a file passing every gate yields Ok.
The concrete 0-byte file, directory, unsupported extension and 50×50 image
each fail with pairwise distinct non-empty reasons. -/
theorem C8_validator_gating :
    (∀ f : PyFile, f.pathExists = false →
      validate_file f = (false, some ("File not found: " ++ f.pathStr))) ∧
    (∀ f : PyFile, f.pathExists = true → f.isFile = false →
      validate_file f = (false, some ("Not a file: " ++ f.pathStr))) ∧
    (∀ (f : PyFile) (e : String), f.pathExists = true → f.isFile = true →
      f.statSize = .error e →
      validate_file f = (false, some ("Cannot access file: " ++ e))) ∧
    (∀ (f : PyFile) (size : Nat), f.pathExists = true → f.isFile = true →
      f.statSize = .ok size → size > MAX_FILE_SIZE →
      validate_file f = (false, some ("File too large: " ++
        fmtFixed 1 ((size : ℚ) / 1024 / 1024) ++ " MB (max " ++
        fmtFixed 0 500 ++ " MB)"))) ∧
    (∀ f : PyFile, f.pathExists = true → f.isFile = true →
      f.statSize = .ok 0 →
      validate_file f = (false, some "File is empty")) ∧
    (∀ (f : PyFile) (size : Nat), f.pathExists = true → f.isFile = true →
      f.statSize = .ok size → 0 < size → size ≤ MAX_FILE_SIZE →
      is_supported f.suffix = false →
      validate_file f = (false, some ("Unsupported format: " ++ f.suffix))) ∧
    (∀ (f : PyFile) (size : Nat) (e : String), f.pathExists = true →
      f.isFile = true → f.statSize = .ok size → 0 < size →
      size ≤ MAX_FILE_SIZE → is_supported f.suffix = true →
      f.opened = .error e →
      validate_file f = (false, some ("Cannot open image: " ++ e))) ∧
    (∀ (f : PyFile) (size w h : Nat), f.pathExists = true →
      f.isFile = true → f.statSize = .ok size → 0 < size →
      size ≤ MAX_FILE_SIZE → is_supported f.suffix = true →
      f.opened = .ok (w, h) → (w < 100 ∨ h < 100) →
      validate_file f = (false, some ("Image too small: " ++ toString w ++
        "x" ++ toString h ++ "px (min 100x100px)"))) ∧
    (∀ (f : PyFile) (size w h : Nat), f.pathExists = true →
      f.isFile = true → f.statSize = .ok size → 0 < size →
      size ≤ MAX_FILE_SIZE → is_supported f.suffix = true →
      f.opened = .ok (w, h) → 100 ≤ w → 100 ≤ h →
      (w > 50000 ∨ h > 50000) →
      validate_file f = (false, some ("Image too large: " ++ toString w ++
        "x" ++ toString h ++ "px (max 50000x50000px)"))) ∧
    (∀ (f : PyFile) (size w h : Nat), f.pathExists = true →
      f.isFile = true → f.statSize = .ok size → 0 < size →
      size ≤ MAX_FILE_SIZE → is_supported f.suffix = true →
      f.opened = .ok (w, h) → 100 ≤ w → 100 ≤ h → w ≤ 50000 → h ≤ 50000 →
      validate_file f = (true, none)) ∧
    (validate_file emptyFile = (false, some "File is empty") ∧
     validate_file dirFile = (false, some "Not a file: /p/photos") ∧
     validate_file badExtFile = (false, some "Unsupported format: .xyz") ∧
     validate_file smallImgFile =
       (false, some "Image too small: 50x50px (min 100x100px)") ∧
     validate_file goodFile = (true, none) ∧
     List.Pairwise (fun a b => a ≠ b)
       ["File is empty", "Not a file: /p/photos", "Unsupported format: .xyz",
        "Image too small: 50x50px (min 100x100px)"] ∧
     (∀ r ∈ ["File is empty", "Not a file: /p/photos",
        "Unsupported format: .xyz",
        "Image too small: 50x50px (min 100x100px)"], r ≠ "")) := by
  refine ⟨?_, ?_, ?_, ?_, ?_, ?_, ?_, ?_, ?_, ?_, by decide⟩
  · intro f h
    simp [validate_file, h]
  · intro f h1 h2
    simp [validate_file, h1, h2]
  · intro f e h1 h2 h3
    simp [validate_file, h1, h2, h3]
  · intro f size h1 h2 h3 h4
    simp [validate_file, h1, h2, h3, h4]
  · intro f h1 h2 h3
    simp [validate_file, h1, h2, h3, MAX_FILE_SIZE]
  · intro f size h1 h2 h3 h4 h5 h6
    simp [validate_file, h1, h2, h3, h6, Nat.not_lt.mpr h5,
      (beq_eq_false_iff_ne.mpr (by omega : size ≠ 0))]
  · intro f size e h1 h2 h3 h4 h5 h6 h7
    simp [validate_file, h1, h2, h3, h6, h7, Nat.not_lt.mpr h5,
      (beq_eq_false_iff_ne.mpr (by omega : size ≠ 0))]
  · intro f size w h h1 h2 h3 h4 h5 h6 h7 h8
    simp [validate_file, h1, h2, h3, h6, h7, h8, Nat.not_lt.mpr h5,
      (beq_eq_false_iff_ne.mpr (by omega : size ≠ 0))]
  · intro f size w h h1 h2 h3 h4 h5 h6 h7 h8 h9 h10
    simp [validate_file, h1, h2, h3, h6, h7, h10, Nat.not_lt.mpr h5,
      (beq_eq_false_iff_ne.mpr (by omega : size ≠ 0))]
    intro hc
    exact absurd hc (by omega)
  · intro f size w h h1 h2 h3 h4 h5 h6 h7 h8 h9 h10 h11
    simp [validate_file, h1, h2, h3, h6, h7, Nat.not_lt.mpr h5,
      (beq_eq_false_iff_ne.mpr (by omega : size ≠ 0))]
    rw [if_neg (by omega : ¬(w < 100 ∨ h < 100)),
      if_neg (by omega : ¬(50000 < w ∨ 50000 < h))]

/-- Witness for C8: the short-circuit theorem applied to the missing file. -/
theorem C8_witness :
    validate_file missingFile =
      (false, some ("File not found: " ++ missingFile.pathStr)) := by
  exact C8_validator_gating.1 missingFile rfl

/-! ## C9: batch processing -/

theorem batch_go_fst (B : PILBackend) (cold : Option Nat) (total : Nat) :
    ∀ (fs : List PyFile) (i : Nat),
      (batch_go B cold total i fs).1 =
        fs.map (fun f => process_image B f cold) := by
  intro fs
  induction fs with
  | nil => intro i; rfl
  | cons f t ih => intro i; simp [batch_go, ih]

theorem batch_go_snd_len (B : PILBackend) (cold : Option Nat) (total : Nat) :
    ∀ (fs : List PyFile) (i : Nat),
      (batch_go B cold total i fs).2.length = fs.length := by
  intro fs
  induction fs with
  | nil => intro i; rfl
  | cons f t ih => intro i; simp [batch_go, ih]

theorem batch_go_snd (B : PILBackend) (cold : Option Nat) (total : Nat) :
    ∀ (fs : List PyFile) (i k : Nat), k < fs.length →
      (batch_go B cold total i fs).2.getD k (0, 0, mkFailure "") =
        (i + k, total, process_image B (fs.getD k missingFile) cold) := by
  intro fs
  induction fs with
  | nil => intro i k hk; simp at hk
  | cons f t ih =>
      intro i k hk
      cases k with
      | zero => simp [batch_go]
      | succ n =>
          have hn : n < t.length := by simpa using hk
          have harith : (i + 1) + n = i + (n + 1) := by omega
          simp only [batch_go, List.getD_cons_succ]
          rw [ih (i + 1) n hn, harith]

theorem getD_map_lt {α β : Type} (g : α → β) (fs : List α) :
    ∀ (k : Nat), k < fs.length → ∀ (d : β) (df : α),
      (fs.map g).getD k d = g (fs.getD k df) := by
  induction fs with
  | nil => intro k hk; simp at hk
  | cons a t ih =>
      intro k hk d df
      cases k with
      | zero => rfl
      | succ n =>
          have hn : n < t.length := by simpa using hk
          simpa [List.getD_cons_succ] using ih n hn d df

/-- Claim C9: batch_process returns exactly one result per input, in input
order, each equal to processing that input individually with process_image;
the progress trace records one invocation per item, in order, carrying
(index, total, that item's result); a failing item (here a nonexistent
path) yields success = false at its position and leaves every other
position equal to its individual processing. -/
theorem C9_batch_processing :
    (∀ (B : PILBackend) (files : List PyFile) (cold : Option Nat),
      (batch_process B files cold).1.length = files.length ∧
      (batch_process B files cold).2.length = files.length ∧
      (∀ k, k < files.length →
        (batch_process B files cold).1.getD k (mkFailure "") =
          process_image B (files.getD k missingFile) cold ∧
        (batch_process B files cold).2.getD k (0, 0, mkFailure "") =
          (k + 1, files.length,
            process_image B (files.getD k missingFile) cold))) ∧
    ((batch_process trivB [goodFile, missingFile, goodFile] none).1.length = 3 ∧
     (batch_process trivB [goodFile, missingFile, goodFile] none).1.getD 1
       (mkFailure "") = process_image trivB missingFile none ∧
     (process_image trivB missingFile none).success = false ∧
     (process_image trivB missingFile none).error =
       some ("File not found: " ++ missingFile.pathStr) ∧
     (batch_process trivB [goodFile, missingFile, goodFile] none).1.getD 0
       (mkFailure "") = process_image trivB goodFile none ∧
     (batch_process trivB [goodFile, missingFile, goodFile] none).1.getD 2
       (mkFailure "") = process_image trivB goodFile none) := by
  have hgen : ∀ (B : PILBackend) (files : List PyFile) (cold : Option Nat),
      (batch_process B files cold).1.length = files.length ∧
      (batch_process B files cold).2.length = files.length ∧
      (∀ k, k < files.length →
        (batch_process B files cold).1.getD k (mkFailure "") =
          process_image B (files.getD k missingFile) cold ∧
        (batch_process B files cold).2.getD k (0, 0, mkFailure "") =
          (k + 1, files.length,
            process_image B (files.getD k missingFile) cold)) := by
    intro B files cold
    refine ⟨?_, ?_, ?_⟩
    · unfold batch_process
      rw [batch_go_fst]
      exact List.length_map _ _
    · unfold batch_process
      exact batch_go_snd_len B cold files.length files 1
    · intro k hk
      constructor
      · unfold batch_process
        rw [batch_go_fst]
        exact getD_map_lt _ files k hk _ missingFile
      · unfold batch_process
        rw [batch_go_snd B cold files.length files 1 k hk]
        have : 1 + k = k + 1 := by omega
        rw [this]
  refine ⟨hgen, ?_, ?_, by decide, by decide, ?_, ?_⟩
  · exact (hgen trivB [goodFile, missingFile, goodFile] none).1
  · exact ((hgen trivB [goodFile, missingFile, goodFile] none).2.2 1
      (by norm_num)).1
  · exact ((hgen trivB [goodFile, missingFile, goodFile] none).2.2 0
      (by norm_num)).1
  · exact ((hgen trivB [goodFile, missingFile, goodFile] none).2.2 2
      (by norm_num)).1

/-- Witness for C9: the pointwise clause at a concrete batch and index. -/
theorem C9_witness :
    (batch_process trivB [missingFile] none).1.getD 0 (mkFailure "") =
      process_image trivB missingFile none := by
  exact ((C9_batch_processing.1 trivB [missingFile] none).2.2 0
    (by norm_num)).1

/-! ## C10: detect_format covers a strict subset of the supported set -/

/-- Counterexample to C10 as stated: the supported-extension set has 31
members, not 30. -/
theorem C10_counterexample :
    SUPPORTED_EXTENSIONS.Nodup ∧ ¬SUPPORTED_EXTENSIONS.length = 30 := by
  decide

/-- Claim C10 as amended: is_supported and detect_format disagree on
coverage — for .cr3, .raf, .orf, .rw2 and .crw, is_supported is true while
detect_format is absent, because the extension-to-format map covers only a
strict 11-extension subset of the 31-extension (not 30) supported set; so
is_supported does not imply a present detect_format. -/
theorem C10_format_coverage :
    (is_supported ".cr3" = true ∧ detect_format ".cr3" = none) ∧
    (is_supported ".raf" = true ∧ detect_format ".raf" = none) ∧
    (is_supported ".orf" = true ∧ detect_format ".orf" = none) ∧
    (is_supported ".rw2" = true ∧ detect_format ".rw2" = none) ∧
    (is_supported ".crw" = true ∧ detect_format ".crw" = none) ∧
    (∀ p ∈ format_map, p.1 ∈ SUPPORTED_EXTENSIONS) ∧
    (format_map.map Prod.fst).Nodup ∧
    format_map.length = 11 ∧
    SUPPORTED_EXTENSIONS.Nodup ∧
    SUPPORTED_EXTENSIONS.length = 31 ∧
    (".cr3" ∈ SUPPORTED_EXTENSIONS ∧
      ".cr3" ∉ format_map.map Prod.fst) := by
  decide

/-- Witness for C10: the subset clause at a concrete map entry. -/
theorem C10_witness : (".jpg", ImageFormat.JPEG).1 ∈ SUPPORTED_EXTENSIONS := by
  exact C10_format_coverage.2.2.2.2.2.1 (".jpg", ImageFormat.JPEG) (by decide)

end Imalink
